import Mathlib

/-!
Verification development for the EVF_deploy email-verification engine
(src/backend/email_verifier.py and src/backend/job_manager.py).

The Python code is shallowly embedded: pure helpers become Lean functions;
every network interaction (DNS answers, socket outcomes, SMTP wire replies,
WHOIS, HTTP) is an explicit environment value consumed by the embedded
function at the exact program point where the source performs the I/O.
Python floats (latencies) are modelled as rationals, Python ints as Int/Nat,
`None` as `Option.none`, and a raised exception as `Except.error`.
-/

namespace EVF

/-! ## Generic string helpers (Python `in`, `endswith`, `startswith`, `rstrip`) -/

/-- Is `pre` a prefix of `s` (char lists)? -/
def lPrefix : List Char → List Char → Bool
  | [], _ => true
  | _ :: _, [] => false
  | a :: as, b :: bs => a = b && lPrefix as bs

/-- Does `sub` occur inside `s` (Python `sub in s`; the empty string occurs). -/
def lContains (s sub : List Char) : Bool :=
  lPrefix sub s ||
    match s with
    | [] => false
    | _ :: t => lContains t sub

/-- Python `s.find(sub) >= 0` on strings. -/
def strContains (s sub : String) : Bool := lContains s.toList sub.toList

/-- Python `s.endswith(suf)`. -/
def strEndsWith (s suf : String) : Bool := lPrefix suf.toList.reverse s.toList.reverse

/-- Python `s.startswith(pre)`. -/
def strStartsWith (s pre : String) : Bool := lPrefix pre.toList s.toList

/-- Python `s.rstrip('.')`: drop all trailing dots. -/
def rstripDot (s : String) : String :=
  ⟨(s.toList.reverse.dropWhile (· = '.')).reverse⟩

/-- Python `s.lower()`, restricted to ASCII as every string the claims test
is ASCII (defined over the character list so that the kernel can evaluate
it; `String.map` does not reduce). -/
def strLower (s : String) : String := ⟨s.toList.map Char.toLower⟩

/-- Python whitespace for `str.strip()`. -/
def isPyWhite (c : Char) : Bool :=
  c = ' ' || c = '\t' || c = '\n' || c = '\x0d' ||
    c = Char.ofNat 11 || c = Char.ofNat 12

/-- Python `s.strip()`. -/
def strStrip (s : String) : String :=
  ⟨((s.toList.dropWhile isPyWhite).reverse.dropWhile isPyWhite).reverse⟩

/-- Count of `true` entries. -/
def countTrue (l : List Bool) : Nat := (l.filter (· = true)).length

/-! ## Syntax gate (email_verifier.py lines 401-411, `_check_syntax`)

The source matches `^[a-zA-Z0-9._%+-]+@[a-zA-Z0-9.-]+\.[a-zA-Z]{2,}$` with
`re.match`.  No character class contains `@`, so a match has exactly one `@`;
the final `[a-zA-Z]{2,}` contains no dot, so the literal `\.` must be the last
dot of the string.  Python's `$` also matches just before one trailing
newline; that case is reproduced below. -/

def isLocalChar (c : Char) : Bool :=
  c.isAlpha || c.isDigit || c = '.' || c = '_' || c = '%' || c = '+' || c = '-'

def isDomChar (c : Char) : Bool :=
  c.isAlpha || c.isDigit || c = '.' || c = '-'

/-- Split at the first occurrence of `c`; `none` when `c` is absent. -/
def splitFirstAt (c : Char) : List Char → Option (List Char × List Char)
  | [] => none
  | a :: as =>
    if a = c then some ([], as)
    else match splitFirstAt c as with
      | none => none
      | some (l, r) => some (a :: l, r)

/-- Does `cs` match `[a-zA-Z0-9.-]+\.[a-zA-Z]{2,}` exactly? -/
def domMatch (cs : List Char) : Bool :=
  let r := cs.reverse
  let tldR := r.takeWhile (· ≠ '.')
  let rest := r.drop tldR.length
  match rest with
  | [] => false              -- no dot at all
  | _ :: preR =>             -- the head of rest is the last '.' of cs
    let pre := preR.reverse
    let tld := tldR.reverse
    decide (pre ≠ []) && pre.all isDomChar &&
      decide (tld.length ≥ 2) && tld.all (·.isAlpha)

/-- Full-string match of the source regex (without the trailing-newline rule). -/
def synCore (cs : List Char) : Bool :=
  match splitFirstAt '@' cs with
  | none => false
  | some (loc, rest) =>
    decide (loc ≠ []) && loc.all isLocalChar &&
      (rest.all (· ≠ '@')) && domMatch rest

/-- `re.match(pattern, email)` truthiness, `$` also matching before a final
newline. -/
def synValid (email : String) : Bool :=
  let cs := email.toList
  synCore cs ||
    (match cs.getLast? with
     | some c => c = '\n' && synCore cs.dropLast
     | none => false)

structure SynResult where
  valid : Bool
  points : Int
  reason : String
  deriving Repr, DecidableEq

/-- Embeds `_check_syntax` (lines 401-411). -/
def checkSynGate (email : String) : SynResult :=
  let v := synValid email
  { valid := v
    points := if v then 10 else 0
    reason := if v then "Valid syntax" else "Invalid syntax" }

/-! ## DNS health probe (lines 413-512, `_check_dns_health`)

Environment: the outcome of each resolver query the probe performs.  The bare
`except:` handlers swallow every resolver failure, so each query outcome is
either an answer or an unspecified failure.  `dns.resolver.resolve` never
returns an empty answer set (it raises `NoAnswer`), which matters only as a
well-formedness hypothesis on environments. -/

inductive MxOutcome where
  /-- The MX query returned records (the exchange hostnames, in answer order). -/
  | answer (hosts : List String)
  /-- The MX query raised `dns.resolver.NoAnswer` (line 449). -/
  | noAnswer
  /-- The MX query raised any other exception (line 457). -/
  | otherFail
  deriving Repr, DecidableEq

structure DnsEnv where
  /-- Does the initial A query (line 435) succeed? -/
  aRecord : Bool
  mx : MxOutcome
  /-- Does the fallback A query (line 452, run only on `NoAnswer`) succeed? -/
  aFallback : Bool
  /-- TXT strings for the domain ([] models failure or no records). -/
  spfTxts : List String
  /-- TXT strings for `_dmarc.<domain>`. -/
  dmarcTxts : List String
  /-- Did some TXT query at a DKIM selector succeed (line 490)? -/
  dkimHit : Bool
  /-- Measured `dns_response_time_ms` (line 498), in whole milliseconds. -/
  elapsedMs : Nat
  deriving Repr, DecidableEq

structure DnsResult where
  domain_exists : Bool
  mx_present : Bool
  spf_exists : Bool
  dkim_exists : Bool
  dmarc_exists : Bool
  dns_response_time_ms : Nat
  points : Int
  mx_hosts : List String
  deriving Repr, DecidableEq

/-- Embeds `_check_dns_health` (lines 413-512).  The outer
`except dns.resolver.NXDOMAIN / except Exception` handlers (506-509) are
unreachable because every inner query is wrapped in a bare `except`. -/
def checkDnsHealth (domain : String) (env : DnsEnv) : DnsResult :=
  let r0 : DnsResult :=
    { domain_exists := env.aRecord, mx_present := false, spf_exists := false
      dkim_exists := false, dmarc_exists := false
      dns_response_time_ms := 0, points := 0, mx_hosts := [] }
  -- MX query with A-record fallback (lines 441-458)
  let r1 :=
    match env.mx with
    | .answer hosts =>
      { r0 with mx_hosts := hosts.map rstripDot, mx_present := true
                points := r0.points + 20 }
    | .noAnswer =>
      if env.aFallback then { r0 with domain_exists := true, mx_hosts := [domain] }
      else r0
    | .otherFail => r0
  -- SPF (lines 461-470)
  let r2 :=
    if env.spfTxts.any (fun t => strStartsWith t "v=spf1") then
      { r1 with spf_exists := true, points := r1.points + 5 }
    else r1
  -- DMARC (lines 473-483)
  let r3 :=
    if env.dmarcTxts.any (fun t => strStartsWith t "v=DMARC1") then
      { r2 with dmarc_exists := true, points := r2.points + 5 }
    else r2
  -- DKIM selectors (lines 486-495)
  let r4 :=
    if env.dkimHit then { r3 with dkim_exists := true, points := r3.points + 5 }
    else r3
  -- response-time scoring (lines 497-504)
  let r5 := { r4 with dns_response_time_ms := env.elapsedMs }
  if env.elapsedMs < 300 then { r5 with points := r5.points + 3 }
  else if env.elapsedMs > 800 then { r5 with points := r5.points - 3 }
  else r5

/-! ## SMTP connection probe (lines 587-705, `_check_smtp_connection`) -/

/-- Per-MX-host socket environment for one loop iteration (lines 624-703). -/
structure HostConnEnv where
  /-- `connect_ex((mx_host, 25)) == 0` (line 629). -/
  portOpen : Bool
  /-- Greeting line read by the raw socket, already decoded and stripped
  (line 652); `none` when the raw-socket read raised (line 664). -/
  rawGreeting : Option String
  /-- Does `server.connect(mx_host, 25)` (line 674) succeed? -/
  connectOk : Bool
  /-- Non-fast mode: STARTTLS advertised and `starttls()`+`ehlo()` both
  succeeded (lines 679-683); any failure in that block is swallowed. -/
  tlsUpgraded : Bool
  /-- Does the final `server.quit()` (line 694) succeed?  On failure the
  exception is caught at line 697 and the loop continues with the next host. -/
  quitOk : Bool
  deriving Repr, DecidableEq

structure GreetingResult where
  valid : Bool
  points : Int
  code : Option Nat
  message : String
  deriving Repr, DecidableEq

structure ConnResult where
  port_25_open : Bool
  tls_successful : Bool
  /-- `none` models the initial empty greeting dict `{}` (line 592). -/
  greeting : Option GreetingResult
  points : Int
  mx_used : Option String
  skipped : Bool
  /-- The source never writes an `error` key into this dict; the field exists
  because `_analyze_blocklist_behavior` reads it with `.get`. -/
  error : Option String
  deriving Repr, DecidableEq

def ConnResult.init : ConnResult :=
  { port_25_open := false, tls_successful := false, greeting := none
    points := 0, mx_used := none, skipped := false, error := none }

/-- Blocked-provider suffix list (lines 44-49). -/
def smtp_blocked_domains : List String :=
  ["outlook.com", "hotmail.com", "live.com", "msn.com",
   "gmail.com", "googlemail.com", "yahoo.com", "yahoo.co.uk",
   "aol.com", "icloud.com", "me.com", "mac.com",
   "microsoft.com", "office365.com"]

/-- Transactional-provider MX patterns (lines 608-612). -/
def transactional_patterns : List String :=
  ["inbound-smtp", "amazonaws.com", "sendgrid.net",
   "mailgun.org", "mailgun.com", "sparkpostmail.com",
   "postmarkapp.com", "mandrillapp.com"]

/-- Greeting handling for one host with open port (lines 643-671). -/
def greetingOf (raw : Option String) : GreetingResult :=
  match raw with
  | some s =>
    if strStartsWith s "220" then
      { valid := true, points := 10, code := some 220, message := s }
    else
      { valid := false, points := -10, code := none, message := "" }
  | none => { valid := false, points := -10, code := none, message := "" }

/-- The `for mx_host in mx_hosts[:2]` loop (lines 624-703).  Each entry of
`hosts` pairs an MX hostname with its socket environment. -/
def connLoop (fast : Bool) : List (String × HostConnEnv) → ConnResult → ConnResult
  | [], acc => acc
  | (h, e) :: rest, acc =>
    if !e.portOpen then connLoop fast rest acc   -- line 632: closed, next host
    else
      let acc := { acc with port_25_open := true, points := acc.points + 10
                            mx_used := some h }
      let acc := { acc with greeting := some (greetingOf e.rawGreeting) }
      if !e.connectOk then connLoop fast rest acc  -- line 697: continue
      else
        let acc :=
          if !fast && e.tlsUpgraded then
            { acc with tls_successful := true, points := acc.points + 5 }
          else acc
        if e.quitOk then acc                        -- line 695: break
        else connLoop fast rest acc                 -- quit raised: continue

/-- Embeds `_check_smtp_connection` (lines 587-705).  `hostEnvs` supplies the
socket outcomes for the first two MX hosts, positionally. -/
def checkSmtpConnection (domain : String) (mx_hosts : List String)
    (fast : Bool) (hostEnvs : List HostConnEnv) : ConnResult :=
  if mx_hosts = [] then ConnResult.init
  else
    let dl := strLower domain
    if smtp_blocked_domains.any
        (fun b => strContains dl b || strEndsWith dl ("." ++ b)) then
      { ConnResult.init with skipped := true }
    else if (mx_hosts.take 2).any
        (fun mx => transactional_patterns.any (fun p => strContains (strLower mx) p)) then
      { ConnResult.init with skipped := true }
    else
      connLoop fast ((mx_hosts.take 2).zip hostEnvs) ConnResult.init

/-! ## RCPT probe (lines 707-817, `_check_smtp_rcpt`) -/

structure TimingResult where
  response_time_sec : ℚ
  points : Int
  deriving Repr, DecidableEq

structure RcptResult where
  accepted : Bool
  rejected : Bool
  hard_failure : Bool
  soft_failure : Bool
  catch_all_detected : Bool
  timing : TimingResult
  points : Int
  error : Option String
  response_code : Option Nat
  skipped : Bool
  deriving Repr, DecidableEq

def RcptResult.init : RcptResult :=
  { accepted := false, rejected := false, hard_failure := false
    soft_failure := false, catch_all_detected := false
    timing := { response_time_sec := 0, points := 0 }
    points := 0, error := none, response_code := none, skipped := false }

/-- Wire-level outcome of the RCPT dialogue (lines 744-812). -/
inductive RcptWire where
  /-- An exception was raised before the RCPT reply was recorded (connect,
  EHLO/HELO, MAIL FROM, or RCPT itself); `msg` is the error string stored by
  the matching `except` handler (lines 807-815). -/
  | dialogueFail (msg : String)
  /-- MAIL FROM returned a code outside {250, 251}: quit and return the
  still-default result (lines 755-757).  No error is recorded. -/
  | mailRefused
  /-- RCPT TO replied with `code`/`message` after `latency` seconds; `quitOk`
  tells whether the `server.quit()` at line 765 succeeded (when it raises,
  classification and timing scoring are skipped and `quitMsg` is stored). -/
  | reply (code : Nat) (message : String) (latency : ℚ) (quitOk : Bool)
      (quitMsg : String)
  deriving Repr, DecidableEq

/-- Python `round(x, 2)` on the recorded latency: `⌊q·100 + 1/2⌋ / 100`,
written with integer operations on the numerator/denominator pair so the
kernel can evaluate it (`Rat.add`/`Rat.mul` are irreducible); for `q = n/d`
with `d > 0`, `⌊100·q + 1/2⌋ = (200·n + d).fdiv (2·d)`.  The float
tie-breaking subtleties are irrelevant to every comparison performed on the
stored value. -/
def round2 (q : ℚ) : ℚ :=
  mkRat ((200 * q.num + (q.den : Int)).fdiv (2 * (q.den : Int))) 100

/-- RCPT reply classification (lines 767-797). -/
def classifyRcpt (code : Nat) (message : String) (r : RcptResult) : RcptResult :=
  if code = 250 ∨ code = 251 then
    { r with accepted := true, points := r.points + 10 }
  else if code = 550 then
    let ml := strLower message
    if strContains ml "user unknown" || strContains ml "5.1.1" then
      { r with rejected := true, hard_failure := true, points := 0
               error := some "User unknown" }
    else
      { r with rejected := true, points := 0 }
  else if code = 450 ∨ code = 451 then
    { r with soft_failure := true, points := r.points + 10
             error := some "Temporarily unavailable (greylisted)" }
  else if code = 421 then
    { r with soft_failure := true, points := r.points + 10
             error := some "Service unavailable, try again later" }
  else if 500 ≤ code ∧ code < 600 then
    { r with rejected := true, hard_failure := true, points := 0
             error := some ("Permanent SMTP error: " ++ toString code) }
  else
    { r with error := some ("Unexpected response: " ++ toString code) }

/-- Embeds `_check_smtp_rcpt` (lines 707-817). -/
def checkSmtpRcpt (_email _domain : String) (mx_hosts : List String)
    (conn : ConnResult) (_fast : Bool) (wire : RcptWire) : RcptResult :=
  if conn.skipped || !conn.port_25_open then
    { RcptResult.init with skipped := true }
  else
    match conn.mx_used.orElse (fun _ => mx_hosts.head?) with
    | none => RcptResult.init
    | some _mx_host =>
      match wire with
      | .dialogueFail msg => { RcptResult.init with error := some msg }
      | .mailRefused => RcptResult.init
      | .reply code message latency quitOk quitMsg =>
        let r := { RcptResult.init with
                     timing := { response_time_sec := round2 latency, points := 0 }
                     response_code := some code }
        if !quitOk then
          -- classification (767-797) and timing scoring (799-805) are skipped
          { r with error := some quitMsg }
        else
          let r := classifyRcpt code message r
          -- timing scoring uses the raw (unrounded) response_time (line 800)
          let tpts : Int :=
            if latency < 1 then -10 else if latency > 15 then -5 else 5
          { r with timing := { r.timing with points := tpts } }

/-! ## Domain age (lines 514-585): WHOIS is external I/O, so the probe's
result is an environment value.  The source awards -15 / 0 / +10 or records
`skipped` with 0 points. -/

structure AgeResult where
  age_months : Option ℚ
  points : Int
  skipped : Bool
  deriving Repr, DecidableEq

/-! ## Security reputation (lines 819-846, `_check_security_reputation`);
its input `_check_deliverability` (lines 888-936) is DNS I/O, abstracted as
an environment record. -/

structure DeliverabilityResult where
  spf : Bool
  dkim : Bool
  dmarc : Bool
  spf_record : Option String
  dmarc_record : Option String
  deriving Repr, DecidableEq

structure SecurityResult where
  strong_spf : Bool
  dkim_dmarc_aligned : Bool
  points : Int
  deriving Repr, DecidableEq

/-- Embeds `_check_security_reputation` (lines 819-846). -/
def checkSecurityReputation (deliv : DeliverabilityResult) : SecurityResult :=
  let r0 : SecurityResult :=
    { strong_spf := false, dkim_dmarc_aligned := false, points := 0 }
  let r1 :=
    if deliv.spf then
      -- line 835: `deliverability.get("spf_record", "")`; the key is always
      -- present, possibly None; Python `len(None)` cannot occur because
      -- spf=True implies the record string was stored (lines 908-909)
      let rec_ := deliv.spf_record.getD ""
      if rec_.length > 10 &&
          (strContains rec_ "include:" || strContains rec_ "ip4:" ||
            strContains rec_ "ip6:") then
        { r0 with strong_spf := true, points := r0.points + 3 }
      else r0
    else r0
  if deliv.dkim && deliv.dmarc then
    { r1 with dkim_dmarc_aligned := true, points := r1.points + 5 }
  else r1

/-! ## Web presence (lines 848-886): HTTP I/O, abstracted.  For each of
https/http the request either fails (`none`) or returns a status code. -/

structure WebEnv where
  https : Option Nat
  http : Option Nat
  deriving Repr, DecidableEq

structure WebResult where
  has_website : Bool
  http_status : Option Nat
  points : Int
  skipped : Bool
  deriving Repr, DecidableEq

/-- Embeds `_check_web_presence` (lines 848-886); the cache is per-process
state that cannot change the value computed for a fresh domain. -/
def checkWebPresence (env : WebEnv) : WebResult :=
  let hit :=
    match env.https with
    | some s => some s
    | none => env.http
  match hit with
  | some s =>
    { has_website := true, http_status := some s
      points := 5 + (if s = 200 then 5 else 0), skipped := false }
  | none => { has_website := false, http_status := none, points := -10, skipped := false }

/-! ## Provider fingerprint (lines 964-1025): opens its own SMTP session. -/

structure MpfDialogue where
  pipelining : Bool
  bitmime : Bool
  size : Bool
  starttls : Bool
  noopOk : Bool
  deriving Repr, DecidableEq

inductive MpfEnv where
  /-- `smtplib.SMTP(timeout=5)` construction failed (line 1021): skipped. -/
  | outerFail
  /-- connect/ehlo raised (line 1018): error recorded, 0 points. -/
  | dialogueFail
  | dialogue (d : MpfDialogue)
  deriving Repr, DecidableEq

/-- Points of `_check_provider_fingerprint` (lines 964-1025) as a function of
its session environment; the probe is skipped when there are no MX hosts or
the connection probe was skipped (line 972). -/
def mpfPoints (mx_hosts : List String) (conn : ConnResult) (env : MpfEnv) : Int :=
  if mx_hosts = [] || conn.skipped then 0
  else
    match env with
    | .outerFail => 0
    | .dialogueFail => 0
    | .dialogue d =>
      let c := countTrue [d.pipelining, d.bitmime, d.size, d.starttls]
      let base : Int := if c ≥ 3 then 10 else if c ≥ 2 then 5 else if c ≥ 1 then 2 else 0
      if d.noopOk then base else max 0 (base - 3)

/-! ## SMTP error-pattern classifier (lines 1027-1067): pure. -/

structure ErrPatternResult where
  category : Option String
  points : Int
  pattern : Option String
  deriving Repr, DecidableEq

/-- Python truthiness of an optional string (`None` and `""` are falsy). -/
def optTruthy : Option String → Bool
  | some s => s ≠ ""
  | none => false

/-- Embeds `_classify_smtp_error_pattern` (lines 1027-1067).
`smtp_rcpt.get("error") or smtp_connection.get("error", "")`: the rcpt error
wins when truthy; the connection dict never holds an `error` key, so the
fallback is the default `""` unless `conn.error` were set. -/
def classifySmtpErrorPattern (rcpt : RcptResult) (conn : ConnResult) : ErrPatternResult :=
  let e : String :=
    if optTruthy rcpt.error then rcpt.error.getD ""
    else (conn.error.getD "")
  let el := strLower e
  if strContains el "rate limit" || strContains el "too many" || strContains el "429" then
    { category := some "rate_limited", points := 5, pattern := some "Rate limited" }
  else if strContains el "greylist" || strContains el "451" || strContains el "temporarily" then
    { category := some "greylist", points := 10, pattern := some "Greylisted" }
  else if strContains el "policy" || strContains el "privacy" || strContains el "not allowed" then
    { category := some "policy_block", points := 3, pattern := some "Policy block" }
  else if strContains el "connection refused" || strContains el "refused" then
    { category := some "connection_refused", points := 3, pattern := some "Connection refused" }
  else if strContains el "timeout" || strContains el "dead" || strContains el "no route" then
    { category := some "dead_server", points := -20, pattern := some "Dead server" }
  else if strContains el "reset" then
    { category := some "connection_reset", points := 0, pattern := some "Connection reset" }
  else
    { category := some "unknown", points := 0, pattern := none }

/-! ## Provider-level behaviour rules (lines 60-74 and 1069-1101): pure. -/

/-- The provider rule table (lines 61-74), in insertion order, restricted to
the one field the scoring path reads (`max_score_without_rcpt`). -/
def provider_rules : List (String × Int) :=
  [("gmail.com", 55), ("googlemail.com", 55), ("outlook.com", 60),
   ("hotmail.com", 60), ("live.com", 60), ("yahoo.com", 55),
   ("yahoo.co.uk", 55), ("zoho.com", 75), ("protonmail.com", 50),
   ("icloud.com", 50), ("me.com", 50), ("mac.com", 50)]

/-- The first rule whose key is a substring of the lowered domain or a
dot-suffix of it (line 1082). -/
def providerRuleFor (domain : String) : Option (String × Int) :=
  let dl := strLower domain
  provider_rules.find? (fun pr => strContains dl pr.1 || strEndsWith dl ("." ++ pr.1))

structure PlbrResult where
  provider : Option String
  rule_applied : Bool
  score_adjusted : Bool
  adjusted_score : Int
  deriving Repr, DecidableEq

/-- Embeds `_apply_provider_rules` (lines 1069-1101). -/
def applyProviderRules (domain : String) (rcpt : RcptResult) (current_score : Int) :
    PlbrResult :=
  match providerRuleFor domain with
  | none =>
    { provider := none, rule_applied := false, score_adjusted := false
      adjusted_score := current_score }
  | some (p, maxScore) =>
    if !rcpt.accepted && current_score > maxScore then
      { provider := some p, rule_applied := true, score_adjusted := true
        adjusted_score := maxScore }
    else
      { provider := some p, rule_applied := true, score_adjusted := false
        adjusted_score := current_score }

/-! ## Server behaviour heuristics (lines 1359-1392): pure. -/

/-- Points of `_analyze_server_behavior` (lines 1359-1392). -/
def serverBehaviorPoints (conn : ConnResult) (rcpt : RcptResult) : Int :=
  let p0 : Int := 0
  let p1 := if (conn.greeting.map (·.valid)).getD false then p0 + 3 else p0
  let p2 := if conn.tls_successful then p1 + 5 else p1
  let t := rcpt.timing.response_time_sec
  let p3 := if 0 < t ∧ t < 1 then p2 + 2 else if t > 5 then p2 - 2 else p2
  max (-5) (min 15 p3)

/-! ## Blocklist behaviour (lines 1429-1458): pure but can raise.

Line 1438 runs `smtp_rcpt.get("error", "").lower()`; the `error` key is
always present in the rcpt dict (initialised to `None` at line 720), so
`.get` returns the stored value and `.lower()` raises `AttributeError`
whenever that value is `None`.  That happens exactly on a 550 reply whose
message carries neither "user unknown" nor "5.1.1" (lines 779-781). -/

structure BlkResult where
  points : Int
  behavior : String
  deriving Repr, DecidableEq

def noneLowerError : String :=
  "AttributeError: NoneType object has no attribute lower"

/-- Embeds `_analyze_blocklist_behavior` (lines 1429-1458). -/
def analyzeBlocklistBehavior (rcpt : RcptResult) (conn : ConnResult) :
    Except String BlkResult :=
  if rcpt.rejected then
    match rcpt.error with
    | none => .error noneLowerError         -- None.lower() at line 1438
    | some e =>
      -- `str(smtp_rcpt.get("response_code", ""))` is "None" for a stored
      -- None; neither "None" nor "0" contains "550", so the default is
      -- observationally identical
      if strContains (strLower e) "user unknown" ||
          strContains (toString (rcpt.response_code.getD 0)) "550" then
        .ok { points := 5, behavior := "instant_reject" }
      else
        .ok { points := 0, behavior := "unknown" }
  else if rcpt.accepted then
    .ok { points := 0, behavior := "accepts" }
  else if rcpt.soft_failure then
    .ok { points := 3, behavior := "greylist" }
  else if optTruthy conn.error then
    let e := strLower (conn.error.getD "")
    if strContains e "timeout" then .ok { points := -3, behavior := "timeout" }
    else if strContains e "policy" then .ok { points := 2, behavior := "policy_block" }
    else .ok { points := 0, behavior := "unknown" }
  else
    .ok { points := 0, behavior := "unknown" }

/-! ## MX popularity (lines 1394-1427): pure string matching. -/

def popular_mx_patterns : List String :=
  ["privateemail.com", "zoho.com", "hostinger.com", "google.com",
   "outlook.com", "yahoo.com", "amazonaws.com", "sendgrid.net", "mailgun.org"]

/-- Points of `_check_mx_popularity` (lines 1394-1427). -/
def mxPopularityPoints (mx_host : String) : Int :=
  if popular_mx_patterns.any (fun p => strContains (strLower mx_host) p) then 10 else 0

/-! ## MX redundancy (lines 1545-1568): pure. -/

/-- Points of `_check_mx_redundancy` (lines 1545-1568). -/
def mxRedundancyPoints (mx_hosts : List String) : Int :=
  let n := mx_hosts.length
  if n = 0 then -20
  else if n = 1 then -3
  else if 2 ≤ n ∧ n ≤ 4 then 5
  else 3

/-! ## SMTP strictness (lines 1570-1613): pure but can raise (line 1597 runs
`smtp_rcpt.get("error", "").lower()`, the same `None.lower()` slip as the
blocklist probe). -/

/-- Embeds `_check_smtp_strictness` (lines 1570-1613), returning its points. -/
def checkSmtpStrictness (conn : ConnResult) (rcpt : RcptResult) :
    Except String Int :=
  let p0 : Int := 0
  let p1 := if (conn.greeting.map (·.valid)).getD false then p0 + 2 else p0
  -- line 1584: `if smtp_rcpt.get("response_code")` (0 would be falsy)
  let p2 : Int :=
    match rcpt.response_code with
    | some c =>
      if c ≠ 0 ∧ ¬(c = 250 ∨ c = 251) ∧
          strContains (match rcpt.error with
                       | some s => strLower s
                       | none => "none") "mail" then
        p1 + 3
      else p1
    | none => p1
  let p3 :=
    if rcpt.rejected ∧ (rcpt.response_code = some 500 ∨
        rcpt.response_code = some 501 ∨ rcpt.response_code = some 502) then
      p2 + 3
    else p2
  match rcpt.error with
  | none => .error noneLowerError            -- None.lower() at line 1597
  | some e =>
    let el := strLower e
    let p4 :=
      if strContains el "spam" || strContains el "policy" || strContains el "block" then
        p3 + 2
      else p3
    .ok (if p4 ≥ 8 then 10 else if p4 ≥ 4 then 0 else -5)

/-! ## Connection-latency fingerprint (lines 1660-1688): pure. -/

structure LatResult where
  points : Int
  pattern : String
  deriving Repr, DecidableEq

/-- Embeds `_analyze_connection_latency` (lines 1660-1688).  It reads the
stored (rounded) `response_time_sec`, whose default is 0 whenever the RCPT
dialogue never reached the point of recording a latency. -/
def analyzeConnectionLatency (_conn : ConnResult) (rcpt : RcptResult) : LatResult :=
  let t := rcpt.timing.response_time_sec
  let half : ℚ := mkRat 1 2
  if t < half then { points := -10, pattern := "instant_reject" }
  else if half ≤ t ∧ t ≤ 3 then { points := 8, pattern := "normal" }
  else if 3 < t ∧ t ≤ 10 then { points := 0, pattern := "slow" }
  else { points := -5, pattern := "very_slow" }

/-! ## MX brand (lines 1846-1882): pure. -/

def trusted_brands : List String :=
  ["google.com", "outlook.com", "secureserver.net", "privateemail.com",
   "mailsrvr.com", "amazonaws.com", "sendgrid.net", "mailgun.org",
   "mailgun.com", "zoho.com", "yahoo.com", "aol.com"]

/-- Points of `_check_mx_brand` (lines 1846-1882). -/
def mxBrandPoints (mx_host : String) : Int :=
  if trusted_brands.any (fun p => strContains (strLower mx_host) p) then 10 else 0

/-! ## SMTP banner inspection (lines 1942-1981): pure. -/

def professional_patterns : List String :=
  ["esmtp", "postfix", "sendmail", "exim", "microsoft", "exchange",
   "mailjet", "sendgrid", "mailgun", "amazon", "google"]

def suspicious_patterns : List String := ["test", "fake", "honeypot", "spam"]

/-- Points of `_analyze_smtp_banner` (lines 1942-1981). -/
def analyzeSmtpBannerPoints (banner : String) : Int :=
  let bl := strLower banner
  if professional_patterns.any (fun p => strContains bl p) then 8
  else if suspicious_patterns.any (fun p => strContains bl p) then -8
  else if (strStrip banner).length < 10 then -8
  else 0

/-! ## Remaining network probes, abstracted into outcome environments with
their exact point assignments from the source. -/

/-- `_check_tls_certificate` (lines 1162-1226). -/
inductive TciOutcome where
  | skipped                                  -- outer exception (line 1222)
  | noTls                                    -- ssl.SSLError (line 1219)
  | noCert                                   -- handshake fine, empty cert dict
  | cert (domainMatch selfSigned expired : Bool)
  deriving Repr, DecidableEq

def tciPoints : TciOutcome → Int
  | .skipped => 0
  | .noTls => 0
  | .noCert => 0
  | .cert dm ss ex =>
    (if dm then 5 else 0) + (if ss then -10 else 5) + (if ex then -10 else 0)

/-- `_check_ptr_record` (lines 1285-1315). -/
inductive PtrOutcome where
  | skipped                                  -- resolution error (line 1311)
  | noPtr                                    -- socket.herror (line 1307)
  | ptr (isMatch : Bool)
  deriving Repr, DecidableEq

def ptrPoints : PtrOutcome → Int
  | .skipped => 0
  | .noPtr => -5
  | .ptr m => if m then 5 else -5

/-- `_check_ip_reputation` (lines 1317-1357). -/
inductive IpRepOutcome where
  | skipped
  | blacklisted
  | clean
  deriving Repr, DecidableEq

def ipRepPoints : IpRepOutcome → Int
  | .skipped => 0
  | .blacklisted => -10
  | .clean => 10

/-- `_check_mx_consistency` (lines 1462-1508). -/
inductive MxConsOutcome where
  | skipped
  | broken                                   -- any break in the chain: -10
  | perfect
  deriving Repr, DecidableEq

def mxConsPoints : MxConsOutcome → Int
  | .skipped => 0
  | .broken => -10
  | .perfect => 10

/-- `_check_tls_policy_strength` (lines 1510-1543). -/
inductive TlsPolicyOutcome where
  | skipped
  | downgrade                                -- ssl.SSLError: -5
  | cipher                                   -- handshake with cipher: +10
  | nocipher                                 -- handshake, no cipher: -5
  deriving Repr, DecidableEq

def tlsPolicyPoints : TlsPolicyOutcome → Int
  | .skipped => 0
  | .downgrade => -5
  | .cipher => 10
  | .nocipher => -5

/-- `_check_mailfrom_health` (lines 1615-1658). -/
inductive MailfromOutcome where
  | skipped
  | dialogueFail                             -- inner exception: 0 points
  | rejects                                  -- +7
  | accepts                                  -- -7
  deriving Repr, DecidableEq

def mailfromPoints (mx_hosts : List String) (conn : ConnResult)
    (o : MailfromOutcome) : Int :=
  if mx_hosts = [] || conn.skipped then 0
  else
    match o with
    | .skipped => 0
    | .dialogueFail => 0
    | .rejects => 7
    | .accepts => -7

/-- `_check_loadbalancer_behavior` (lines 1690-1740). -/
inductive LbOutcome where
  | fewResponses                             -- fewer than 2 responses: 0
  | consistent                               -- +5
  | inconsistent                             -- -10
  deriving Repr, DecidableEq

def lbPoints : LbOutcome → Int
  | .fewResponses => 0
  | .consistent => 5
  | .inconsistent => -10

/-- `_check_vrfy_lite_behavior` (lines 1742-1790). -/
inductive VrfyOutcome where
  | skipped
  | different                                -- +6
  | same                                     -- -6
  deriving Repr, DecidableEq

def vrfyPoints (mx_hosts : List String) (conn : ConnResult) (o : VrfyOutcome) : Int :=
  if mx_hosts = [] || conn.skipped then 0
  else
    match o with
    | .skipped => 0
    | .different => 6
    | .same => -6

/-- `_check_role_accounts` (lines 1792-1844): `validCount` of the four role
addresses accepted. -/
def roleAccountPoints (mx_hosts : List String) (validCount : Nat) : Int :=
  if mx_hosts = [] then 0
  else if validCount = 4 then 6
  else if validCount = 0 then -6
  else 0

/-- `_check_domain_blacklists` (lines 1983-2025). -/
inductive DblOutcome where
  | skipped
  | listed                                   -- -10
  | clean                                    -- +10
  deriving Repr, DecidableEq

def dblPoints : DblOutcome → Int
  | .skipped => 0
  | .listed => -10
  | .clean => 10

/-- `_check_quit_behavior` (lines 2027-2059). -/
inductive QuitOutcome where
  | skipped
  | code221                                  -- +4
  | other                                    -- -4
  deriving Repr, DecidableEq

def quitBehaviorPoints : QuitOutcome → Int
  | .skipped => 0
  | .code221 => 4
  | .other => -4

/-- `_check_tcp_stability` (lines 2061-2101): number of successful connects
out of three.  `total_attempts // 2 = 1`. -/
def tcpStabilityPoints (stable : Nat) : Int :=
  if stable = 3 then 5 else if stable ≥ 1 then 0 else -5

/-! ## The orchestrator: `verify_email` (lines 93-399)

The pipeline is split into three stage functions at the two program points
the claims talk about: `stage1` ends with the hard-failure cap
(lines 104-169), `stage2` ends with the provider-rule cap (lines 171-202),
`stage3` is the rest (lines 204-399).  `verify_email` is their composition.
`VerifyEnv` packages the outcome of every network interaction one
verification performs, in the order the source performs them. -/

/-- `DOMAIN_CONFIDENCE_OVERRIDES` entry (lines 32-33, applied at 388-397). -/
structure OverrideRule where
  min_score : Option Int
  force_status : Option String
  deriving Repr, DecidableEq

structure VerifyEnv where
  dns : DnsEnv
  domainAge : AgeResult
  connHosts : List HostConnEnv
  rcptWire : RcptWire
  deliv : DeliverabilityResult
  web : WebEnv
  mpf : MpfEnv
  /-- `_smtp_retry_simulation` outcome: `success_after_retry` (line 207). -/
  retrySuccess : Bool
  tci : TciOutcome
  /-- Which of ports 25/465/587/2525 are open (lines 1235-1246). -/
  mailPorts : List Bool
  /-- DNSKEY present (lines 1265-1268). -/
  dnssecEnabled : Bool
  ptr : PtrOutcome
  ipRep : IpRepOutcome
  mxCons : MxConsOutcome
  tlsPolicy : TlsPolicyOutcome
  mailfrom : MailfromOutcome
  lb : LbOutcome
  vrfy : VrfyOutcome
  /-- How many of the four role addresses were accepted (lines 1810-1829). -/
  roleValidCount : Nat
  /-- Greylist depth probe accepted after a retry (lines 1924-1928). -/
  greylistAccepted : Bool
  dbl : DblOutcome
  quitB : QuitOutcome
  /-- Successful connects out of three (lines 2077-2087). -/
  tcpStable : Nat
  /-- `_detect_catch_all` outcome (`is_catchall`) when it runs (line 348). -/
  catchallIs : Bool
  /-- `DOMAIN_CONFIDENCE_OVERRIDES.get(domain)` (line 389). -/
  override : Option OverrideRule

/-- The score_details entries the theorems below inspect (the source dict
holds one entry per executed probe; entries no theorem reads are not
recorded). -/
structure Details where
  synCheck : SynResult
  dns_health : Option DnsResult := none
  domain_age : Option AgeResult := none
  smtp_connection : Option ConnResult := none
  smtp_rcpt : Option RcptResult := none
  smtp_timing : Option TimingResult := none
  provider_rules : Option PlbrResult := none
  blocklist_behavior : Option BlkResult := none
  latency_fingerprint : Option LatResult := none
  catch_all_is : Option Bool := none
  deriving Repr, DecidableEq

structure VerifyResult where
  email : String
  status : String
  score : Int
  confidence : ℚ
  reason : String
  /-- the `risky` key (line 352); absent is modelled as `false`. -/
  risky : Bool := false
  details : Details
  deriving Repr, DecidableEq

/-- Score-to-status mapping (lines 371-386). -/
def bucketOf (score : Int) : String :=
  if score ≥ 90 then "valid"
  else if score ≥ 70 then "likely_valid"
  else if score ≥ 50 then "uncertain"
  else if score ≥ 20 then "likely_invalid"
  else "invalid"

/-- Reason attached to each bucket (lines 371-386). -/
def reasonOf (score : Int) : String :=
  if score ≥ 90 then "Very likely valid"
  else if score ≥ 70 then "Probably valid but unconfirmed"
  else if score ≥ 50 then "Uncertain (common when SMTP blocks verification)"
  else if score ≥ 20 then "Likely invalid"
  else "Definitely invalid"

/-- Lines 388-397: the optional per-domain override, applied last. -/
def applyOverride (r : VerifyResult) (ov : Option OverrideRule) : VerifyResult :=
  match ov with
  | none => r
  | some o =>
    let r1 :=
      match o.min_score with
      | some m =>
        let s := max r.score m
        { r with score := s, confidence := (s : ℚ) / 100 }
      | none => r
    match o.force_status with
    | some st => { r1 with status := st }
    | none => r1

/-- Lines 364-386 then 388-397: clamp, confidence, bucket, override. -/
def finalize (email : String) (risky : Bool) (raw : Int) (det : Details)
    (ov : Option OverrideRule) : VerifyResult :=
  let s := max 0 (min 100 raw)
  applyOverride
    { email := email, status := bucketOf s, score := s
      confidence := (s : ℚ) / 100, reason := reasonOf s
      risky := risky, details := det } ov

/-- `email.lower().split('@', 1)`: the part after the first `@` of the
lowered string (line 122; syntax validity guarantees the `@` exists). -/
def emailDomain (lowered : String) : String :=
  match splitFirstAt '@' lowered.toList with
  | some (_, rest) => ⟨rest⟩
  | none => ""

inductive Stage1Out where
  /-- One of the two early returns fired (lines 112-120 or 138-143). -/
  | early (r : VerifyResult)
  /-- Pipeline continues; `score` is the total after the hard-failure cap
  (lines 167-169). -/
  | proceed (score : Int) (domain : String) (dnsR : DnsResult)
      (connR : ConnResult) (rcptR : RcptResult) (det : Details)
  deriving Repr, DecidableEq

/-- Lines 104-169: syntax gate, DNS health (with early returns), domain age,
SMTP connection, greeting points, RCPT probe, hard-failure cap. -/
def stage1 (env : VerifyEnv) (email : String) (fast : Bool) : Stage1Out :=
  let synR := checkSynGate email
  let score : Int := synR.points
  if ¬synR.valid then
    .early { email := email, status := "invalid", score := 0, confidence := 0
             reason := "Invalid email syntax", details := { synCheck := synR } }
  else
    let domain := emailDomain (strLower email)
    let dnsR := checkDnsHealth domain env.dns
    let score := score + dnsR.points
    let det : Details := { synCheck := synR, dns_health := some dnsR }
    if ¬dnsR.domain_exists then
      .early { email := email, status := "invalid", score := score
               confidence := (score : ℚ) / 100
               reason := "Domain does not exist", details := det }
    else
      let mx_hosts := dnsR.mx_hosts
      let ageR := env.domainAge
      let score := score + ageR.points
      let det := { det with domain_age := some ageR }
      let connR := checkSmtpConnection domain mx_hosts fast env.connHosts
      let score := score + connR.points
      let det := { det with smtp_connection := some connR }
      let score := score + ((connR.greeting.map (·.points)).getD 0)
      let rcptR := checkSmtpRcpt email domain mx_hosts connR fast env.rcptWire
      let score := score + rcptR.points
      let det := { det with smtp_rcpt := some rcptR }
      let score := if rcptR.hard_failure then min score 10 else score
      .proceed score domain dnsR connR rcptR det

/-- Lines 171-202: RCPT timing points, security reputation, web presence,
provider fingerprint (non-fast), error-pattern classifier, provider-rule
cap.  Returns the capped score and the grown details. -/
def stage2 (env : VerifyEnv) (fast : Bool) (score0 : Int) (domain : String)
    (dnsR : DnsResult) (connR : ConnResult) (rcptR : RcptResult)
    (det : Details) : Int × Details :=
  let score := score0 + rcptR.timing.points
  let det := { det with smtp_timing := some rcptR.timing }
  let score := score + (checkSecurityReputation env.deliv).points
  let score := score + (checkWebPresence env.web).points
  let score := if ¬fast then score + mpfPoints dnsR.mx_hosts connR env.mpf else score
  let score := score + (classifySmtpErrorPattern rcptR connR).points
  let plbr := applyProviderRules domain rcptR score
  let score := if plbr.score_adjusted then plbr.adjusted_score else score
  let det := { det with provider_rules := some plbr }
  (score, det)

/-- The non-raising remainder of the pipeline given the values of the two
fallible probes: score accumulation for steps 13-36, catch-all, clamp,
bucket, override (lines 204-399 minus the two raising calls). -/
def stage3Core (env : VerifyEnv) (email : String) (fast : Bool) (score0 : Int)
    (dnsR : DnsResult) (connR : ConnResult) (rcptR : RcptResult)
    (det : Details) (blk : BlkResult) (strictPts : Int) : VerifyResult :=
  let mx_hosts := dnsR.mx_hosts
  -- 13. retry simulation (lines 204-209)
  let score := if ¬fast ∧ rcptR.soft_failure ∧ env.retrySuccess then score0 + 20
               else score0
  -- 14. TLS certificate intelligence (lines 211-215)
  let score := if connR.mx_used.isSome then score + tciPoints env.tci else score
  -- 15. mail ports (lines 217-221)
  let score := if ¬fast ∧ mx_hosts ≠ [] then score + 2 * (countTrue env.mailPorts : Int)
               else score
  -- 16. DNSSEC (lines 223-226; not gated on fast mode)
  let score := score + (if env.dnssecEnabled then 5 else 0)
  -- 17. PTR (lines 228-232)
  let score := if mx_hosts ≠ [] then score + ptrPoints env.ptr else score
  -- 18. IP reputation (lines 234-238)
  let score := if mx_hosts ≠ [] then score + ipRepPoints env.ipRep else score
  -- 19. server behaviour (lines 240-244)
  let score := if connR.mx_used.isSome then score + serverBehaviorPoints connR rcptR
               else score
  -- 20. MX popularity (lines 246-250)
  let score :=
    match mx_hosts with
    | [] => score
    | h :: _ => score + mxPopularityPoints h
  -- 21. blocklist behaviour points (lines 252-255)
  let score := score + blk.points
  let det := { det with blocklist_behavior := some blk }
  -- 22. MX consistency (lines 258-262)
  let score := if mx_hosts ≠ [] then score + mxConsPoints env.mxCons else score
  -- 23. TLS policy strength (lines 264-268)
  let score := if connR.mx_used.isSome ∧ ¬fast then score + tlsPolicyPoints env.tlsPolicy
               else score
  -- 24. MX redundancy (lines 270-273; always runs)
  let score := score + mxRedundancyPoints mx_hosts
  -- 25. SMTP strictness points (lines 275-279)
  let score := score + strictPts
  -- 26. MAIL FROM health (lines 281-285)
  let score := if connR.mx_used.isSome ∧ ¬fast then
                 score + mailfromPoints mx_hosts connR env.mailfrom
               else score
  -- 27. latency fingerprint (lines 287-291)
  let latStep : Option LatResult :=
    if connR.mx_used.isSome ∧ ¬fast then
      some (analyzeConnectionLatency connR rcptR)
    else none
  let score := score + ((latStep.map (·.points)).getD 0)
  let det := { det with latency_fingerprint := latStep }
  -- 28. load balancer (lines 293-297)
  let score := if mx_hosts.length > 1 ∧ ¬fast then score + lbPoints env.lb
               else score
  -- 29. VRFY lite (lines 299-303)
  let score := if connR.mx_used.isSome ∧ ¬fast then
                 score + vrfyPoints mx_hosts connR env.vrfy
               else score
  -- 30. role accounts (lines 305-309)
  let score := if ¬fast then score + roleAccountPoints mx_hosts env.roleValidCount
               else score
  -- 31. MX brand (lines 311-315)
  let score :=
    match mx_hosts with
    | [] => score
    | h :: _ => score + mxBrandPoints h
  -- 32. greylist depth (lines 317-321)
  let score := if rcptR.soft_failure ∧ ¬fast ∧ env.greylistAccepted then score + 10
               else score
  -- 33. banner inspection (lines 323-327; runs when the greeting message
  -- is a truthy string)
  let bannerMsg := (connR.greeting.map (·.message)).getD ""
  let score := if bannerMsg ≠ "" then score + analyzeSmtpBannerPoints bannerMsg
               else score
  -- 34. domain blacklists (lines 329-332; always runs)
  let score := score + dblPoints env.dbl
  -- 35. QUIT behaviour (lines 334-338)
  let score := if connR.mx_used.isSome ∧ ¬fast then
                 score + quitBehaviorPoints env.quitB
               else score
  -- 36. TCP stability (lines 340-345)
  let score := if connR.mx_used.isSome ∧ ¬fast then
                 score + tcpStabilityPoints env.tcpStable
               else score
  -- catch-all detection (lines 347-352)
  let isCatchall := if ¬fast then env.catchallIs else false
  let det := { det with catch_all_is := some isCatchall }
  let score := if isCatchall then score + 10 else score
  let risky := isCatchall
  -- internet_check (lines 354-362) only adds a details entry; failures are
  -- swallowed and the score is untouched
  finalize email risky score det env.override

/-- Lines 204-399: the remaining probes, catch-all, clamp, bucket, override.
The two probes that can raise do so at pipeline steps 21
(`_analyze_blocklist_behavior`, line 253) and 25 (`_check_smtp_strictness`,
line 277); in this pure embedding their evaluation is hoisted in front of
the score accumulation, which preserves both the success value and the
raised exception (the step-21 exception wins when both would raise, as in
the source). -/
def stage3 (env : VerifyEnv) (email : String) (fast : Bool) (score0 : Int)
    (_domain : String) (dnsR : DnsResult) (connR : ConnResult)
    (rcptR : RcptResult) (det : Details) : Except String VerifyResult :=
  match analyzeBlocklistBehavior rcptR connR with
  | .error e => .error e
  | .ok blk =>
    match (if connR.mx_used.isSome ∧ ¬fast then checkSmtpStrictness connR rcptR
           else .ok 0 : Except String Int) with
    | .error e => .error e
    | .ok strictPts =>
      .ok (stage3Core env email fast score0 dnsR connR rcptR det blk strictPts)

/-- Embeds `verify_email` (lines 93-399). -/
def verify_email (env : VerifyEnv) (email : String) (fast : Bool) :
    Except String VerifyResult :=
  match stage1 env email fast with
  | .early r => .ok r
  | .proceed score domain dnsR connR rcptR det =>
    let (score2, det2) := stage2 env fast score domain dnsR connR rcptR det
    stage3 env email fast score2 domain dnsR connR rcptR det2

/-! ### Projections used to state the claims without destructuring -/

def s1score : Stage1Out → Int
  | .early r => r.score
  | .proceed s _ _ _ _ _ => s

def s1hard : Stage1Out → Bool
  | .early _ => false
  | .proceed _ _ _ _ r _ => r.hard_failure

def s1domain : Stage1Out → Option String
  | .early _ => none
  | .proceed _ d _ _ _ _ => some d

def s1rcptAccepted : Stage1Out → Option Bool
  | .early _ => none
  | .proceed _ _ _ _ r _ => some r.accepted

def s1mxUsed : Stage1Out → Option (Option String)
  | .early _ => none
  | .proceed _ _ _ c _ _ => some c.mx_used

/-- The recorded RCPT latency of a proceeding run. -/
def s1rcptTime : Stage1Out → Option ℚ
  | .early _ => none
  | .proceed _ _ _ _ r _ => some r.timing.response_time_sec

/-- The post-provider-cap score (end of `stage2`) for a proceeding run. -/
def s2score (env : VerifyEnv) (fast : Bool) : Stage1Out → Option Int
  | .early _ => none
  | .proceed s d dnsR connR rcptR det =>
    some (stage2 env fast s d dnsR connR rcptR det).1

def vScore : Except String VerifyResult → Option Int
  | .ok r => some r.score
  | .error _ => none

def vStatus : Except String VerifyResult → Option String
  | .ok r => some r.status
  | .error _ => none

def vReason : Except String VerifyResult → Option String
  | .ok r => some r.reason
  | .error _ => none

def vConfidence : Except String VerifyResult → Option ℚ
  | .ok r => some r.confidence
  | .error _ => none

def vRcptHard : Except String VerifyResult → Option Bool
  | .ok r => (r.details.smtp_rcpt.map (·.hard_failure))
  | .error _ => none

def vRuleApplied : Except String VerifyResult → Option Bool
  | .ok r => (r.details.provider_rules.map (·.rule_applied))
  | .error _ => none

def vRcptAccepted : Except String VerifyResult → Option Bool
  | .ok r => (r.details.smtp_rcpt.map (·.accepted))
  | .error _ => none

def vMxPresent : Except String VerifyResult → Option Bool
  | .ok r => (r.details.dns_health.map (·.mx_present))
  | .error _ => none

def vLatency : Except String VerifyResult → Option (Int × String)
  | .ok r => (r.details.latency_fingerprint.map (fun l => (l.points, l.pattern)))
  | .error _ => none

/-- The exception message, when the verification raised one. -/
def vError : Except String VerifyResult → Option String
  | .ok _ => none
  | .error e => some e

/-! ## Job manager (src/backend/job_manager.py)

The registry is a dict keyed by job id; every operation takes the lock, so a
run is a sequence of atomic operations.  The dict is modelled as a function
`String → Option Job`; `uuid4` and `time.time()` are modelled as values the
operation carries. -/

structure Job where
  jtype : String
  status : String
  total_rows : Nat
  processed_rows : Nat
  success_rows : Nat
  error_rows : Nat
  created_at : Nat
  started_at : Option Nat
  finished_at : Option Nat
  message : Option String
  output_path : Option String
  output_filename : Option String
  errors : List String
  deriving Repr, DecidableEq

/-- `create_job`'s fresh job dict (lines 21-37); `id` lives in the registry
key, `metadata` is opaque and never touched again. -/
def Job.new (jtype : String) (total : Nat) (now : Nat) : Job :=
  { jtype := jtype, status := "pending", total_rows := total
    processed_rows := 0, success_rows := 0, error_rows := 0
    created_at := now, started_at := none, finished_at := none
    message := none, output_path := none, output_filename := none
    errors := [] }

/-- One atomic call into the `JobManager`, carrying the values the source
draws from its surroundings (`uuid4`, `time.time()`). -/
inductive JobOp where
  | create (id jtype : String) (total : Nat) (now : Nat)
  | start (id : String) (now : Nat)
  | increment (id : String) (success : Bool) (message errorDetail : Option String)
  | complete (id : String) (outputPath outputFilename : String) (now : Nat)
  | fail (id : String) (errorDetail : String) (now : Nat)
  deriving Repr, DecidableEq

def Registry := String → Option Job

def Registry.empty : Registry := fun _ => none

def Registry.set (reg : Registry) (id : String) (j : Job) : Registry :=
  fun k => if k = id then some j else reg k

/-- Python `lst[-10:]`. -/
def lastTen (l : List String) : List String := (l.reverse.take 10).reverse

/-- Apply one operation; `cap = true` is the source (`errors = errors[-10:]`
after each append), `cap = false` is the specification-side ghost machine
that keeps every recorded error (used to state "the most recently recorded
error strings"). -/
def applyOp (cap : Bool) (reg : Registry) : JobOp → Registry
  | .create id jtype total now => reg.set id (Job.new jtype total now)
  | .start id now =>
    match reg id with
    | none => reg
    | some j => reg.set id { j with status := "running", started_at := some now }
  | .increment id success message errorDetail =>
    match reg id with
    | none => reg
    | some j =>
      let j := { j with processed_rows := j.processed_rows + 1 }
      let j :=
        if success then { j with success_rows := j.success_rows + 1 }
        else
          let j := { j with error_rows := j.error_rows + 1 }
          -- line 67: `if error_detail:` — Python truthiness
          if optTruthy errorDetail then
            let appended := j.errors ++ [errorDetail.getD ""]
            { j with errors := if cap then lastTen appended else appended }
          else j
      -- line 71: `if message:` — Python truthiness
      let j := if optTruthy message then { j with message := message } else j
      reg.set id j
  | .complete id outputPath outputFilename now =>
    match reg id with
    | none => reg
    | some j =>
      reg.set id { j with status := "completed", finished_at := some now
                          output_path := some outputPath
                          output_filename := some outputFilename }
  | .fail id errorDetail now =>
    match reg id with
    | none => reg
    | some j =>
      let appended := j.errors ++ [errorDetail]
      reg.set id { j with status := "failed", finished_at := some now
                          message := some errorDetail
                          errors := if cap then lastTen appended else appended }

/-- Run a sequence of operations from the empty registry, as the source does
(each call holds the lock, so the run is the sequential composition). -/
def runOps (ops : List JobOp) : Registry :=
  ops.foldl (applyOp true) Registry.empty

/-- Modelled from the spec: the ghost run that retains every recorded error
string, so that "the most recently recorded error strings" can be stated as
`lastTen` of its error list. -/
def runOpsFull (ops : List JobOp) : Registry :=
  ops.foldl (applyOp false) Registry.empty

/-! ## Concrete environments used by counterexamples and witnesses

Every value below is one the corresponding probe can actually produce: the
comments of the outcome types above list the producing source lines. -/

/-- A neutral environment: every optional probe outcome at its mildest. -/
def baseEnv : VerifyEnv :=
  { dns := { aRecord := true, mx := .otherFail, aFallback := false
             spfTxts := [], dmarcTxts := [], dkimHit := false, elapsedMs := 400 }
    domainAge := { age_months := none, points := 0, skipped := true }
    connHosts := []
    rcptWire := .mailRefused
    deliv := { spf := false, dkim := false, dmarc := false
               spf_record := none, dmarc_record := none }
    web := { https := none, http := some 200 }
    mpf := .outerFail
    retrySuccess := false
    tci := .skipped
    mailPorts := [false, false, false, false]
    dnssecEnabled := false
    ptr := .skipped
    ipRep := .skipped
    mxCons := .skipped
    tlsPolicy := .skipped
    mailfrom := .skipped
    lb := .fewResponses
    vrfy := .skipped
    roleValidCount := 1
    greylistAccepted := false
    dbl := .skipped
    quitB := .skipped
    tcpStable := 1
    catchallIs := false
    override := none }

/-- A healthy open SMTP host: port open, clean 220 greeting, session fine. -/
def okHost : HostConnEnv :=
  { portOpen := true, rawGreeting := some "220 mx1.example.org ESMTP Postfix"
    connectOk := true, tlsUpgraded := false, quitOk := true }

/-- C1: hard RCPT failure (550 user unknown) with healthy surroundings. -/
def cenvC1 : VerifyEnv :=
  { baseEnv with
    dns := { aRecord := true
             mx := .answer ["mx1.example.org.", "mx2.example.org."]
             aFallback := false, spfTxts := [], dmarcTxts := []
             dkimHit := false, elapsedMs := 100 }
    connHosts := [okHost, okHost]
    rcptWire := .reply 550 "550 5.1.1 User unknown" 2 true ""
    tci := .cert true false false
    dnssecEnabled := true
    ptr := .ptr true
    ipRep := .clean
    mxCons := .perfect
    dbl := .clean }

/-- C2: gmail.com (SMTP verification blocked) with a healthy, reputable
domain environment. -/
def cenvC2 : VerifyEnv :=
  { baseEnv with
    dns := { aRecord := true
             mx := .answer ["gmail-smtp-in.l.google.com.",
                            "alt1.gmail-smtp-in.l.google.com.",
                            "alt2.gmail-smtp-in.l.google.com.",
                            "alt3.gmail-smtp-in.l.google.com.",
                            "alt4.gmail-smtp-in.l.google.com."]
             aFallback := false
             spfTxts := ["v=spf1 include:_spf.google.com ~all"]
             dmarcTxts := ["v=DMARC1; p=none; sp=quarantine"]
             dkimHit := true, elapsedMs := 100 }
    domainAge := { age_months := some 240, points := 10, skipped := false }
    deliv := { spf := true, dkim := true, dmarc := true
               spf_record := some "v=spf1 include:_spf.google.com ~all"
               dmarc_record := some "v=DMARC1; p=none" }
    dnssecEnabled := true
    ptr := .ptr true
    ipRep := .clean
    mxCons := .perfect
    dbl := .clean }

/-- C3/C6-style DNS-only environments. -/
def cenvC3 : VerifyEnv :=
  { baseEnv with
    dns := { aRecord := false, mx := .noAnswer, aFallback := false
             spfTxts := ["v=spf1 include:_spf.protection.example -all"]
             dmarcTxts := ["v=DMARC1; p=reject"]
             dkimHit := true, elapsedMs := 100 } }

/-- C4: a 550 reply that is not a "user unknown" reply. -/
def cenvC4 : VerifyEnv :=
  { cenvC1 with
    dns := { aRecord := true, mx := .answer ["mx.corp.example."]
             aFallback := false, spfTxts := [], dmarcTxts := []
             dkimHit := false, elapsedMs := 100 }
    rcptWire := .reply 550 "Relay access denied" 2 true "" }

/-- C6: the domain publishes MX records but no A record. -/
def cenvC6 : VerifyEnv :=
  { baseEnv with
    dns := { aRecord := false, mx := .answer ["mx.mxonly.example."]
             aFallback := false, spfTxts := [], dmarcTxts := []
             dkimHit := false, elapsedMs := 100 } }

/-- C7: MX query answers `NoAnswer`, the fallback A record exists. -/
def denvC7 : DnsEnv :=
  { aRecord := true, mx := .noAnswer, aFallback := true
    spfTxts := [], dmarcTxts := [], dkimHit := false, elapsedMs := 100 }

/-- C10: MX session established, but the separate RCPT dialogue dies before
RCPT TO, leaving the recorded latency at its default 0. -/
def cenvC10 : VerifyEnv :=
  { baseEnv with
    dns := { aRecord := true, mx := .answer ["mail.ten.example."]
             aFallback := false, spfTxts := [], dmarcTxts := []
             dkimHit := false, elapsedMs := 100 }
    connHosts := [{ portOpen := true
                    rawGreeting := some "220 mail.ten.example ESMTP"
                    connectOk := true, tlsUpgraded := true, quitOk := true }]
    rcptWire := .dialogueFail "Connection timeout"
    roleValidCount := 0 }

/-- The same session, but the RCPT dialogue is aborted by the early return
on a refused MAIL FROM (lines 755-757) instead of an exception: nothing is
recorded, in particular the `error` field stays `None`. -/
def cenvC10m : VerifyEnv :=
  { cenvC10 with rcptWire := .mailRefused }

/-- A connection result for an established session on `mx.corp.example`,
as `_check_smtp_connection` produces for a healthy host. -/
def connC5 : ConnResult :=
  { port_25_open := true, tls_successful := false
    greeting := some { valid := true, points := 10, code := some 220
                       message := "220 mx.corp.example ESMTP" }
    points := 10, mx_used := some "mx.corp.example", skipped := false
    error := none }

/-! ## Helper lemmas -/

/-- The DNS probe's points always lie in [-3, 38] (at most 20+5+5+5+3, at
least -3). -/
theorem dns_points_bounds (d : String) (e : DnsEnv) :
    -3 ≤ (checkDnsHealth d e).points ∧ (checkDnsHealth d e).points ≤ 38 := by
  unfold checkDnsHealth
  rcases e.mx with hosts | _ | _ <;> simp only [] <;> split_ifs <;>
    refine ⟨by norm_num, by norm_num⟩

/-- `domain_exists` is decided by the two A lookups alone: the initial one,
or the fallback one that runs only when MX answers `NoAnswer`. -/
theorem dns_domain_exists (d : String) (e : DnsEnv) :
    (checkDnsHealth d e).domain_exists =
      (e.aRecord || (match e.mx with | .noAnswer => e.aFallback | _ => false)) := by
  unfold checkDnsHealth
  rcases e.mx with hosts | _ | _ <;> simp only [] <;> split_ifs <;> simp_all

/-- The per-domain override never touches the details payload. -/
theorem applyOverride_details (r : VerifyResult) (ov : Option OverrideRule) :
    (applyOverride r ov).details = r.details := by
  unfold applyOverride
  rcases ov with _ | o
  · rfl
  · rcases o with ⟨ms, fs⟩
    rcases ms with _ | m <;> rcases fs with _ | st <;> rfl

/-- The per-domain override never touches the reason string. -/
theorem applyOverride_reason (r : VerifyResult) (ov : Option OverrideRule) :
    (applyOverride r ov).reason = r.reason := by
  unfold applyOverride
  rcases ov with _ | o
  · rfl
  · rcases o with ⟨ms, fs⟩
    rcases ms with _ | m <;> rcases fs with _ | st <;> rfl

/-- With no override, `finalize` clamps to [0, 100] and derives status,
reason and confidence from the clamped score. -/
theorem finalize_props (email : String) (risky : Bool) (raw : Int)
    (det : Details) :
    0 ≤ (finalize email risky raw det none).score ∧
      (finalize email risky raw det none).score ≤ 100 ∧
      (finalize email risky raw det none).confidence =
        ((finalize email risky raw det none).score : ℚ) / 100 ∧
      (finalize email risky raw det none).status =
        bucketOf (finalize email risky raw det none).score := by
  unfold finalize applyOverride
  refine ⟨?_, ?_, rfl, rfl⟩ <;> simp


/-- The provider-rule step caps the running score at the matched rule's
`max_score_without_rcpt` whenever RCPT was not accepted. -/
theorem plbr_cap (d : String) (rcpt : RcptResult) (cur : Int) (p : String)
    (m : Int) (hr : providerRuleFor d = some (p, m))
    (ha : rcpt.accepted = false) :
    (if (applyProviderRules d rcpt cur).score_adjusted
     then (applyProviderRules d rcpt cur).adjusted_score else cur) ≤ m := by
  unfold applyProviderRules
  rw [hr]
  simp only [ha]
  split_ifs with h1 <;> simp_all

/-! ## C1 -/

/-- C1 counterexample: with a hard RCPT failure (550 user unknown) and
healthy surrounding probes the returned score is 96, far above 10 — the
cap `score = min(score, 10)` runs right after the RCPT probe, and the many
later probes add points on top of it. -/
theorem C1_counterexample :
    vRcptHard (verify_email cenvC1 "user@example.org" true) = some true ∧
      vScore (verify_email cenvC1 "user@example.org" true) = some 96 ∧
      ¬((96 : Int) ≤ 10) := by
  refine ⟨by decide, by decide, by omega⟩

/-- C1 amended: when the RCPT probe reports `hard_failure`, the running
score is at most 10 *at the point of the cap* (the end of the
syntax/DNS/age/connection/RCPT prefix of the pipeline, lines 104-169); the
probes that run later still add their points, so the final score may exceed
10. -/
theorem stage1_proceed_hard (env : VerifyEnv) (email : String) (fast : Bool)
    (s : Int) (d : String) (dnsR : DnsResult) (connR : ConnResult)
    (rcptR : RcptResult) (det : Details)
    (h1 : stage1 env email fast = .proceed s d dnsR connR rcptR det)
    (hh : rcptR.hard_failure = true) : s ≤ 10 := by
  simp only [stage1] at h1
  split at h1
  · cases h1
  · split at h1
    · cases h1
    · cases h1
      rw [hh] at *
      simp only [if_true]
      exact min_le_right _ _

theorem C1_amended (env : VerifyEnv) (email : String) (fast : Bool)
    (h : s1hard (stage1 env email fast) = true) :
    s1score (stage1 env email fast) ≤ 10 := by
  rcases h1 : stage1 env email fast with r | ⟨s, d, dnsR, connR, rcptR, det⟩
  · rw [h1] at h; simp [s1hard] at h
  · rw [h1] at h
    simp only [s1hard] at h
    simp only [s1score]
    exact stage1_proceed_hard env email fast s d dnsR connR rcptR det h1 h

/-- C1 witness: the amended theorem applied to the concrete hard-failure
run. -/
theorem C1_amended_witness :
    s1score (stage1 cenvC1 "user@example.org" true) ≤ 10 :=
  C1_amended cenvC1 "user@example.org" true (by decide)

/-! ## C2 -/

/-- C2 counterexample: `user@gmail.com` matches the gmail provider rule
(cap 55) and RCPT is not accepted (SMTP is skipped for gmail), yet the
returned score is 100 — the cap runs at its pipeline position (step 12) and
the fifteen probes after it add points freely. -/
theorem C2_counterexample :
    vRuleApplied (verify_email cenvC2 "user@gmail.com" true) = some true ∧
      vRcptAccepted (verify_email cenvC2 "user@gmail.com" true) = some false ∧
      vScore (verify_email cenvC2 "user@gmail.com" true) = some 100 ∧
      providerRuleFor "gmail.com" = some ("gmail.com", 55) ∧
      ¬((100 : Int) ≤ 55) := by
  refine ⟨by decide, by decide, by decide, by decide, by omega⟩

theorem stage1_proceed_inv (env : VerifyEnv) (email : String) (fast : Bool)
    (s : Int) (d : String) (dnsR : DnsResult) (connR : ConnResult)
    (rcptR : RcptResult) (det : Details)
    (h1 : stage1 env email fast = .proceed s d dnsR connR rcptR det) :
    d = emailDomain (strLower email) ∧
      dnsR = checkDnsHealth d env.dns ∧
      connR = checkSmtpConnection d dnsR.mx_hosts fast env.connHosts ∧
      rcptR = checkSmtpRcpt email d dnsR.mx_hosts connR fast env.rcptWire := by
  simp only [stage1] at h1
  split at h1
  · cases h1
  · split at h1
    · cases h1
    · cases h1
      exact ⟨rfl, rfl, rfl, rfl⟩

/-- C2 amended: the provider-rule cap bounds the running score at the end of
`stage2` (pipeline step 12, lines 198-202): whenever the domain matches a
rule and RCPT was not accepted, the score at that point is at most
`max_score_without_rcpt`.  Probes 13-36 run afterwards and may push the
final score above the cap. -/
theorem C2_amended (env : VerifyEnv) (email : String) (fast : Bool)
    (p : String) (m : Int)
    (hr : (s1domain (stage1 env email fast)).bind providerRuleFor = some (p, m))
    (ha : s1rcptAccepted (stage1 env email fast) = some false) :
    ∀ s2, s2score env fast (stage1 env email fast) = some s2 → s2 ≤ m := by
  intro s2 hs2
  rcases h1 : stage1 env email fast with r | ⟨s, d, dnsR, connR, rcptR, det⟩
  · rw [h1] at hr; simp [s1domain] at hr
  · rw [h1] at hr ha hs2
    simp only [s1domain, Option.bind_some] at hr
    simp only [s1rcptAccepted, Option.some_inj] at ha
    simp only [s2score, Option.some_inj] at hs2
    subst hs2
    simp only [stage2]
    exact plbr_cap d rcptR _ p m hr ha

/-- C2 witness: the amended cap evaluated on the concrete gmail run. -/
theorem C2_amended_witness : (55 : Int) ≤ 55 :=
  C2_amended cenvC2 "user@gmail.com" true "gmail.com" 55 (by decide) (by decide)
    55 (by decide)

/-! ## C3 -/

/-- C3 counterexample: a domain that publishes SPF/DMARC/DKIM TXT records
but resolves neither A nor MX takes the early DNS return with score
28 = 10 (syntax) + 18 (TXT + fast-DNS points) and status `invalid`, while
the §4.9 bucket of 28 is `likely_invalid` — the early return does not apply
the bucket mapping. -/
theorem C3_counterexample :
    vStatus (verify_email cenvC3 "user@txtonly.example" true) = some "invalid" ∧
      vScore (verify_email cenvC3 "user@txtonly.example" true) = some 28 ∧
      bucketOf 28 = "likely_invalid" ∧
      ("invalid" : String) ≠ "likely_invalid" := by
  refine ⟨by decide, by decide, by decide, by decide⟩

/-- `stage3Core` always produces a `finalize`d result. -/
theorem stage3Core_finalize (env : VerifyEnv) (email : String) (fast : Bool)
    (s0 : Int) (dnsR : DnsResult) (connR : ConnResult) (rcptR : RcptResult)
    (det : Details) (blk : BlkResult) (sp : Int) :
    ∃ risky raw det2,
      stage3Core env email fast s0 dnsR connR rcptR det blk sp =
        finalize email risky raw det2 env.override := by
  exact ⟨_, _, _, rfl⟩

theorem stage3_ok_finalize (env : VerifyEnv) (email : String) (fast : Bool)
    (s0 : Int) (d : String) (dnsR : DnsResult) (connR : ConnResult)
    (rcptR : RcptResult) (det : Details) (r : VerifyResult)
    (h : stage3 env email fast s0 d dnsR connR rcptR det = .ok r) :
    ∃ risky raw det2, r = finalize email risky raw det2 env.override := by
  unfold stage3 at h
  rcases hb : analyzeBlocklistBehavior rcptR connR with e | blk
  · rw [hb] at h; cases h
  · rw [hb] at h
    rcases hs : (if connR.mx_used.isSome = true ∧ ¬fast = true then
        checkSmtpStrictness connR rcptR else Except.ok 0) with e2 | sp
    · rw [hs] at h; cases h
    · rw [hs] at h
      cases h
      exact stage3Core_finalize env email fast s0 dnsR connR rcptR det blk sp

/-- C3 amended: with no domain override configured, every returned result
satisfies `0 ≤ score ≤ 100` and `confidence = score / 100`; the status is
exactly the §4.9 bucket of the score on every run that passes the DNS gate
(the syntax-gate early return is also bucket-consistent since its score is
0, but the DNS early return fixes status `invalid` even when its score —
which can reach 48 — falls in a higher bucket). -/
theorem C3_amended (env : VerifyEnv) (email : String) (fast : Bool)
    (hov : env.override = none) :
    ∀ r, verify_email env email fast = .ok r →
      0 ≤ r.score ∧ r.score ≤ 100 ∧ r.confidence = (r.score : ℚ) / 100 ∧
      ((∃ s d dnsR connR rcptR det,
          stage1 env email fast = .proceed s d dnsR connR rcptR det) →
        r.status = bucketOf r.score) := by
  intro r h
  rcases h1 : stage1 env email fast with r0 | ⟨s, d, dnsR, connR, rcptR, det⟩
  · -- an early return: `verify_email` hands `r0` through unchanged
    have hr : r = r0 := by
      simp only [verify_email, h1] at h
      injection h with h2
      exact h2.symm
    subst hr
    simp only [stage1] at h1
    split at h1
    case isTrue hsyn =>
      -- syntax early return: score 0, confidence 0
      cases h1
      refine ⟨by norm_num, by norm_num, by norm_num, ?_⟩
      rintro ⟨s, d, dnsR, connR, rcptR, det, hp⟩
      cases hp
    case isFalse hsyn =>
      have hv : synValid email = true := by
        simp only [checkSynGate, not_not] at hsyn
        exact hsyn
      split at h1
      case isTrue hdns =>
        -- DNS early return: score = 10 + dns points ∈ [7, 48]
        cases h1
        have hb := dns_points_bounds (emailDomain (strLower email)) env.dns
        refine ⟨?_, ?_, rfl, ?_⟩
        · simp only [checkSynGate, hv, if_true]
          omega
        · simp only [checkSynGate, hv, if_true]
          omega
        · rintro ⟨s, d, dnsR, connR, rcptR, det, hp⟩
          cases hp
      case isFalse hdns => cases h1
  · -- the full pipeline: clamp and bucket mapping apply
    simp only [verify_email, h1] at h
    obtain ⟨risky, raw, det2, hr⟩ :=
      stage3_ok_finalize env email fast _ d dnsR connR rcptR _ r h
    subst hr
    rw [hov] at *
    obtain ⟨g1, g2, g3, g4⟩ := finalize_props email risky raw det2
    exact ⟨g1, g2, g3, fun _ => g4⟩

/-- C3 witness: the clamp/confidence/bucket facts extracted from the
amended theorem on the concrete gmail run (whose clamped score is 100). -/
theorem C3_amended_witness :
    vConfidence (verify_email cenvC2 "other@gmail.com" true) =
      some (((100 : Int) : ℚ) / 100) := by
  rcases hv : verify_email cenvC2 "other@gmail.com" true with e | r
  · have hsc : vScore (verify_email cenvC2 "other@gmail.com" true) = some 100 := by
      decide
    rw [hv] at hsc
    simp [vScore] at hsc
  · have h := C3_amended cenvC2 "other@gmail.com" true rfl r hv
    have hsc : r.score = 100 := by
      have hs : vScore (verify_email cenvC2 "other@gmail.com" true) = some 100 := by
        decide
      rw [hv] at hs
      simpa [vScore] using hs
    simp only [vConfidence, Option.some_inj]
    rw [h.2.2.1, hsc]

/-! ## C5 -/

/-- C5 counterexample: a 550 reply whose message has neither "user unknown"
nor "5.1.1" sets `rejected` but NOT `hard_failure` (lines 779-781), against
the claim's "every other 550/5xx reply also sets rejected and
hard_failure". -/
theorem C5_counterexample :
    (checkSmtpRcpt "user@corp.example" "corp.example" ["mx.corp.example"]
        connC5 true (.reply 550 "Relay access denied" 2 true "")).rejected = true ∧
      (checkSmtpRcpt "user@corp.example" "corp.example" ["mx.corp.example"]
        connC5 true (.reply 550 "Relay access denied" 2 true "")).hard_failure = false := by
  refine ⟨by decide, by decide⟩

/-- C5 amended: the RCPT classification per the code.  250/251 →
`accepted`, +10.  550 with "user unknown"/"5.1.1" → `rejected` and
`hard_failure`.  550 without those markers → `rejected` only, no
`hard_failure`, and the `error` field stays `None`.  450/451/421 →
`soft_failure`, +10.  Other 5xx → `rejected` and `hard_failure`.  At most
one of accepted/rejected/soft_failure holds, and a transport error sets
none of them. -/
theorem C5_amended (email domain : String) (mxs : List String)
    (conn : ConnResult) (fast : Bool) (code : Nat) (msg : String) (lat : ℚ)
    (qmsg fmsg : String) (r rf : RcptResult) (mh : String)
    (hsk : conn.skipped = false) (hpo : conn.port_25_open = true)
    (hmx : conn.mx_used = some mh)
    (hr : r = checkSmtpRcpt email domain mxs conn fast
        (.reply code msg lat true qmsg))
    (hrf : rf = checkSmtpRcpt email domain mxs conn fast
        (.dialogueFail fmsg)) :
    ((code = 250 ∨ code = 251) → r.accepted = true ∧ r.rejected = false ∧
        r.soft_failure = false ∧ r.hard_failure = false ∧ r.points = 10) ∧
      (code = 550 →
        (strContains (strLower msg) "user unknown" ||
            strContains (strLower msg) "5.1.1") = true →
        r.rejected = true ∧ r.hard_failure = true ∧ r.points = 0 ∧
          r.accepted = false ∧ r.soft_failure = false) ∧
      (code = 550 →
        (strContains (strLower msg) "user unknown" ||
            strContains (strLower msg) "5.1.1") = false →
        r.rejected = true ∧ r.hard_failure = false ∧ r.points = 0 ∧
          r.error = none) ∧
      ((code = 450 ∨ code = 451 ∨ code = 421) → r.soft_failure = true ∧
        r.points = 10 ∧ r.rejected = false ∧ r.hard_failure = false) ∧
      (500 ≤ code → code < 600 → code ≠ 550 → r.rejected = true ∧
        r.hard_failure = true ∧ r.points = 0) ∧
      (¬(r.accepted = true ∧ r.rejected = true) ∧
        ¬(r.accepted = true ∧ r.soft_failure = true) ∧
        ¬(r.rejected = true ∧ r.soft_failure = true)) ∧
      (rf.accepted = false ∧ rf.rejected = false ∧ rf.soft_failure = false ∧
        rf.hard_failure = false ∧ rf.points = 0 ∧ rf.error = some fmsg) := by
  have hbase : ∀ w, checkSmtpRcpt email domain mxs conn fast w =
      (match w with
       | .dialogueFail m => { RcptResult.init with error := some m }
       | .mailRefused => RcptResult.init
       | .reply c m l qOk qM =>
         let r0 := { RcptResult.init with
                       timing := { response_time_sec := round2 l, points := 0 }
                       response_code := some c }
         if !qOk then { r0 with error := some qM }
         else
           let r1 := classifyRcpt c m r0
           let tp : Int := if l < 1 then -10 else if l > 15 then -5 else 5
           { r1 with timing := { r1.timing with points := tp } }) := by
    intro w
    unfold checkSmtpRcpt
    rw [hsk, hpo, hmx]
    rfl
  rw [hbase] at hr hrf
  subst hr hrf
  simp only []
  refine ⟨?_, ?_, ?_, ?_, ?_, ?_, ?_⟩
  · rintro hc
    simp only [classifyRcpt, if_pos hc]
    exact ⟨rfl, rfl, rfl, rfl, rfl⟩
  · rintro rfl hk
    simp only [classifyRcpt]
    norm_num [hk, RcptResult.init]
  · rintro rfl hk
    simp only [classifyRcpt]
    norm_num [hk, RcptResult.init]
  · rintro (rfl | rfl | rfl) <;> simp [classifyRcpt, RcptResult.init]
  · intro h5 h6 hne
    have hn : ¬(code = 250 ∨ code = 251) := by omega
    have hn2 : code ≠ 550 := hne
    have hn3 : ¬(code = 450 ∨ code = 451) := by omega
    have hn4 : code ≠ 421 := by omega
    simp only [classifyRcpt, if_neg hn, if_neg hn2, if_neg hn3, if_neg hn4,
      if_pos (And.intro h5 h6)]
    exact ⟨rfl, rfl, rfl⟩

  · simp only [classifyRcpt]
    split_ifs <;> simp [RcptResult.init]
  · simp [RcptResult.init]

/-- C5 witness: the amended classification applied to a concrete hard 550
("user unknown") reply. -/
theorem C5_amended_witness :
    (checkSmtpRcpt "user@corp.example" "corp.example" ["mx.corp.example"]
        connC5 true (.reply 550 "550 5.1.1 User unknown" 2 true "")).rejected = true ∧
      (checkSmtpRcpt "user@corp.example" "corp.example" ["mx.corp.example"]
        connC5 true (.reply 550 "550 5.1.1 User unknown" 2 true "")).hard_failure = true ∧
      (checkSmtpRcpt "user@corp.example" "corp.example" ["mx.corp.example"]
        connC5 true (.reply 550 "550 5.1.1 User unknown" 2 true "")).points = 0 ∧
      (checkSmtpRcpt "user@corp.example" "corp.example" ["mx.corp.example"]
        connC5 true (.reply 550 "550 5.1.1 User unknown" 2 true "")).accepted = false ∧
      (checkSmtpRcpt "user@corp.example" "corp.example" ["mx.corp.example"]
        connC5 true (.reply 550 "550 5.1.1 User unknown" 2 true "")).soft_failure = false := by
  have h := C5_amended "user@corp.example" "corp.example" ["mx.corp.example"]
    connC5 true 550 "550 5.1.1 User unknown" 2 "" "x" _ _ "mx.corp.example"
    rfl rfl rfl rfl rfl
  exact h.2.1 rfl (by decide)

/-! ## C4 -/

/-- C4: a 550 RCPT reply that is not a "user unknown" reply leaves the RCPT
result's `error` as `None`; `_analyze_blocklist_behavior` (line 1438) then
calls `.lower()` on it and the `AttributeError` escapes `verify_email` —
the probe exception does propagate, contradicting the claim. -/
theorem C4_escape :
    vError (verify_email cenvC4 "user@corp.example" true) =
      some noneLowerError := by
  decide

/-! ## C6 -/

/-- C6 counterexample: the domain publishes MX records (so `mx_present` is
true) but has no A record; `domain_exists` is set only by the two A
lookups, so `verify_email` rejects the address at the DNS stage with score
33 = 10 (syntax) + 20 (MX) + 3 (fast DNS) — the claim said an address whose
domain has MX records is not rejected at this stage. -/
theorem C6_counterexample :
    vStatus (verify_email cenvC6 "user@mxonly.example" true) = some "invalid" ∧
      vReason (verify_email cenvC6 "user@mxonly.example" true) =
        some "Domain does not exist" ∧
      vMxPresent (verify_email cenvC6 "user@mxonly.example" true) = some true ∧
      vScore (verify_email cenvC6 "user@mxonly.example" true) = some 33 := by
  refine ⟨by decide, by decide, by decide, by decide⟩

theorem reasonOf_ne_dne (s : Int) : reasonOf s ≠ "Domain does not exist" := by
  unfold reasonOf
  split_ifs <;> decide

/-- When the embedded DNS environment leaves `domain_exists` false, the
verification takes the early "Domain does not exist" return with
score = syntax points + DNS points. -/
theorem verify_dns_early_shape (env : VerifyEnv) (email : String) (fast : Bool)
    (hsyn : synValid email = true)
    (hde : (checkDnsHealth (emailDomain (strLower email)) env.dns).domain_exists
        = false) :
    vReason (verify_email env email fast) = some "Domain does not exist" ∧
      vScore (verify_email env email fast) =
        some (10 + (checkDnsHealth (emailDomain (strLower email)) env.dns).points) := by
  unfold verify_email
  simp only [stage1, checkSynGate, hsyn, hde]
  refine ⟨rfl, rfl⟩

/-- When `domain_exists` is true, no run reports "Domain does not exist". -/
theorem verify_dns_ok_reason (env : VerifyEnv) (email : String) (fast : Bool)
    (hde : (checkDnsHealth (emailDomain (strLower email)) env.dns).domain_exists
        = true) :
    vReason (verify_email env email fast) ≠ some "Domain does not exist" := by
  rcases h1 : stage1 env email fast with r0 | ⟨s, d, dnsR, connR, rcptR, det⟩
  · have hv : verify_email env email fast = .ok r0 := by
      simp only [verify_email, h1]
    simp only [stage1] at h1
    rw [hde] at h1
    simp only [not_true, if_false] at h1
    split at h1
    case isTrue hsyn =>
      cases h1
      rw [hv]
      simp only [vReason]
      decide
    case isFalse hsyn =>
      simp at h1
  · have hv : verify_email env email fast =
        stage3 env email fast
          (stage2 env fast s d dnsR connR rcptR det).1 d dnsR connR rcptR
          (stage2 env fast s d dnsR connR rcptR det).2 := by
      simp only [verify_email, h1]
    rw [hv]
    rcases h3 : stage3 env email fast
        (stage2 env fast s d dnsR connR rcptR det).1 d dnsR connR rcptR
        (stage2 env fast s d dnsR connR rcptR det).2 with e | r
    · simp [vReason]
    · obtain ⟨risky, raw, det2, hr⟩ :=
        stage3_ok_finalize env email fast _ d dnsR connR rcptR _ r h3
      subst hr
      simp only [vReason, finalize, applyOverride_reason]
      intro hx
      exact reasonOf_ne_dne _ (Option.some.inj hx)

/-- DNS points reduce to the timing adjustment when every lookup fails. -/
theorem dns_points_allfail (d : String) (e : DnsEnv) (ha : e.aRecord = false)
    (hm : e.mx = MxOutcome.otherFail) (hs : e.spfTxts = [])
    (hd : e.dmarcTxts = []) (hk : e.dkimHit = false) :
    (checkDnsHealth d e).points =
        (if e.elapsedMs < 300 then 3 else if e.elapsedMs > 800 then -3 else 0) ∧
      (checkDnsHealth d e).domain_exists = false := by
  unfold checkDnsHealth
  rw [hm, ha, hs, hd, hk]
  simp only [List.any_nil, Bool.false_eq_true, if_false]
  split_ifs <;> exact ⟨rfl, rfl⟩

/-- C6 amended: the DNS stage returns `invalid` ("Domain does not exist")
exactly when the initial A lookup fails and the fallback A lookup — which
runs only when the MX query raises `NoAnswer` — does not succeed.  A domain
with MX records but no A record IS rejected at this stage.  For a fully
non-resolving (NXDOMAIN-style) domain the returned score is the syntax
points plus the DNS timing adjustment (13 when the lookup was fast), not 10
alone. -/
theorem C6_amended (env : VerifyEnv) (email : String) (fast : Bool)
    (hsyn : synValid email = true) :
    (vReason (verify_email env email fast) = some "Domain does not exist" ↔
      env.dns.aRecord = false ∧
        ¬(env.dns.mx = MxOutcome.noAnswer ∧ env.dns.aFallback = true)) ∧
      (env.dns.aRecord = false → env.dns.mx = MxOutcome.otherFail →
        env.dns.spfTxts = [] → env.dns.dmarcTxts = [] →
        env.dns.dkimHit = false →
        vScore (verify_email env email fast) =
          some (10 + (if env.dns.elapsedMs < 300 then 3
                      else if env.dns.elapsedMs > 800 then -3 else 0))) := by
  have hdx := dns_domain_exists (emailDomain (strLower email)) env.dns
  constructor
  · constructor
    · intro hre
      by_contra hc
      have hde : (checkDnsHealth (emailDomain (strLower email)) env.dns).domain_exists
          = true := by
        rw [hdx]
        rcases hmx : env.dns.mx with hosts | _ | _ <;>
          rcases har : env.dns.aRecord with _ | _ <;>
          rcases haf : env.dns.aFallback with _ | _ <;>
          simp_all
      exact verify_dns_ok_reason env email fast hde hre
    · rintro ⟨ha, hnb⟩
      have hde : (checkDnsHealth (emailDomain (strLower email)) env.dns).domain_exists
          = false := by
        rw [hdx, ha]
        rcases hmx : env.dns.mx with hosts | _ | _ <;>
          rcases haf : env.dns.aFallback with _ | _ <;> simp_all
      exact (verify_dns_early_shape env email fast hsyn hde).1
  · intro ha hm hs hd hk
    obtain ⟨hp, hde⟩ := dns_points_allfail (emailDomain (strLower email))
      env.dns ha hm hs hd hk
    have := (verify_dns_early_shape env email fast hsyn hde).2
    rw [this, hp]

/-- C6 witness: the amended characterisation applied to the MX-without-A
environment. -/
theorem C6_amended_witness :
    vReason (verify_email cenvC6 "user@mxonly.example" true) =
      some "Domain does not exist" :=
  (C6_amended cenvC6 "user@mxonly.example" true (by decide)).1.mpr
    ⟨by decide, by decide⟩

/-! ## C7 -/

/-- C7 counterexample: when the MX query answers `NoAnswer` and the fallback
A lookup succeeds, `_check_dns_health` stores `mx_hosts = [domain]` while
`mx_present` stays false — refuting `mx_hosts = [] ↔ ¬mx_present`. -/
theorem C7_counterexample :
    (checkDnsHealth "nomx.example" denvC7).mx_hosts = ["nomx.example"] ∧
      (checkDnsHealth "nomx.example" denvC7).mx_present = false ∧
      (["nomx.example"] : List String) ≠ [] := by
  refine ⟨by decide, by decide, by decide⟩

/-- C7 amended: only one direction survives — `mx_present` implies
`mx_hosts` is non-empty (given that a DNS answer carries at least one
record); the converse fails on the A-fallback path. -/
theorem C7_amended (domain : String) (e : DnsEnv)
    (hwf : ∀ hosts, e.mx = MxOutcome.answer hosts → hosts ≠ []) :
    (checkDnsHealth domain e).mx_present = true →
      (checkDnsHealth domain e).mx_hosts ≠ [] := by
  unfold checkDnsHealth
  rcases hmx : e.mx with hosts | _ | _
  · intro _
    have hne := hwf hosts hmx
    have hmap : hosts.map rstripDot ≠ [] := by
      cases hosts with
      | nil => exact absurd rfl hne
      | cons a t => simp
    simp only []
    split_ifs <;> exact hmap
  · intro hmp
    rcases haf : e.aFallback with _ | _ <;> simp only [haf] at hmp <;>
      split_ifs at hmp <;> simp_all
  · intro hmp
    simp only [] at hmp
    split_ifs at hmp <;> simp_all

/-- C7 witness: applied to a one-record MX answer. -/
theorem C7_amended_witness :
    ((checkDnsHealth "mxonly.example" cenvC6.dns).mx_hosts = []) = False :=
  eq_false
    (C7_amended "mxonly.example" cenvC6.dns
      (fun hosts h => by
        simp only [cenvC6, baseEnv] at h
        cases h
        decide)
      (by decide))

/-! ## C8 -/

/-- C8: an input rejected by the syntax gate yields `invalid` / score 0 /
confidence 0, and the result is the same for every environment — no DNS,
SMTP, or HTTP outcome can influence it, which is the shallow-embedding
rendering of "no network probe is performed".  An input accepted by the
gate earns exactly +10 syntax points. -/
theorem C8_syntax_gate :
    (∀ (env : VerifyEnv) (email : String) (fast : Bool),
        synValid email = false →
        verify_email env email fast = Except.ok
          { email := email, status := "invalid", score := 0, confidence := 0
            reason := "Invalid email syntax"
            details := { synCheck := checkSynGate email } }) ∧
      (∀ email, synValid email = true → (checkSynGate email).points = 10) := by
  constructor
  · intro env email fast h
    simp only [verify_email, stage1, checkSynGate, h]
    rfl
  · intro email h
    simp [checkSynGate, h]

/-- C8 witness: the gate on a concrete invalid and a concrete valid input. -/
theorem C8_syntax_gate_witness :
    verify_email baseEnv "not-an-address" true = Except.ok
      { email := "not-an-address", status := "invalid", score := 0
        confidence := 0, reason := "Invalid email syntax"
        details := { synCheck := checkSynGate "not-an-address" } } ∧
      (checkSynGate "user@example.org").points = 10 :=
  ⟨C8_syntax_gate.1 baseEnv "not-an-address" true (by decide),
    C8_syntax_gate.2 "user@example.org" (by decide)⟩

/-! ## C10 -/

/-- The connection loop never sets `mx_used` without `port_25_open`, never
sets `skipped`, and never sets `error`. -/
theorem connLoop_inv (fast : Bool) :
    ∀ (l : List (String × HostConnEnv)) (acc : ConnResult),
      (acc.mx_used.isSome = true → acc.port_25_open = true) →
      acc.skipped = false → acc.error = none →
      ((connLoop fast l acc).mx_used.isSome = true →
          (connLoop fast l acc).port_25_open = true) ∧
        (connLoop fast l acc).skipped = false ∧
        (connLoop fast l acc).error = none := by
  intro l
  induction l with
  | nil => intro acc h1 h2 h3; exact ⟨h1, h2, h3⟩
  | cons he rest ih =>
    rcases he with ⟨h, e⟩
    intro acc h1 h2 h3
    rcases hpo : e.portOpen with _ | _
    · simp only [connLoop, hpo, Bool.not_false, if_true]
      exact ih acc h1 h2 h3
    · simp only [connLoop, hpo, Bool.not_true, Bool.false_eq_true, if_false]
      rcases hco : e.connectOk with _ | _
      · simp only [Bool.not_false, if_true]
        exact ih _ (fun _ => rfl) h2 h3
      · simp only [Bool.not_true, Bool.false_eq_true, if_false]
        rcases htl : (!fast && e.tlsUpgraded) with _ | _ <;>
          simp only [htl, Bool.false_eq_true, if_false, if_true] <;>
          rcases hq : e.quitOk with _ | _ <;>
          simp only [hq, Bool.false_eq_true, if_false, if_true]
        · exact ih _ (fun _ => rfl) h2 h3
        · refine ⟨?_, ?_, ?_⟩ <;> simp_all
        · exact ih _ (fun _ => rfl) h2 h3
        · refine ⟨?_, ?_, ?_⟩ <;> simp_all

/-- The connection result never carries an `error`, never pairs `mx_used`
with a closed port, and `mx_used` implies the probe was not skipped. -/
theorem conn_inv (domain : String) (hosts : List String) (fast : Bool)
    (envs : List HostConnEnv) :
    ((checkSmtpConnection domain hosts fast envs).mx_used.isSome = true →
        (checkSmtpConnection domain hosts fast envs).port_25_open = true) ∧
      ((checkSmtpConnection domain hosts fast envs).mx_used.isSome = true →
        (checkSmtpConnection domain hosts fast envs).skipped = false) ∧
      (checkSmtpConnection domain hosts fast envs).error = none := by
  simp only [checkSmtpConnection]
  split_ifs with h0 hB hT
  · refine ⟨?_, ?_, ?_⟩
    · intro hx; simp [ConnResult.init] at hx
    · intro _; simp [ConnResult.init]
    · simp [ConnResult.init]
  · refine ⟨?_, ?_, ?_⟩
    · intro hx; simp [ConnResult.init] at hx
    · intro hx; simp [ConnResult.init] at hx
    · simp [ConnResult.init]
  · refine ⟨?_, ?_, ?_⟩
    · intro hx; simp [ConnResult.init] at hx
    · intro hx; simp [ConnResult.init] at hx
    · simp [ConnResult.init]
  · obtain ⟨g1, g2, g3⟩ := connLoop_inv fast ((hosts.take 2).zip envs)
      ConnResult.init (fun hx => by simp [ConnResult.init] at hx) rfl rfl
    exact ⟨g1, fun _ => g2, g3⟩

/-- The RCPT probe's result when the dialogue dies before `RCPT TO`:
everything stays at its default except the stored error string. -/
theorem rcpt_dialogueFail (email domain : String) (mxs : List String)
    (conn : ConnResult) (fast : Bool) (m mh : String)
    (hsk : conn.skipped = false) (hpo : conn.port_25_open = true)
    (hmx : conn.mx_used = some mh) :
    checkSmtpRcpt email domain mxs conn fast (.dialogueFail m) =
      { RcptResult.init with error := some m } := by
  unfold checkSmtpRcpt
  rw [hsk, hpo, hmx]
  rfl

theorem blocklist_ok_of_quiet (rcpt : RcptResult) (conn : ConnResult)
    (hrej : rcpt.rejected = false) (hacc : rcpt.accepted = false)
    (hsoft : rcpt.soft_failure = false) (herr : conn.error = none) :
    analyzeBlocklistBehavior rcpt conn =
      .ok { points := 0, behavior := "unknown" } := by
  unfold analyzeBlocklistBehavior
  rw [hrej, hacc, hsoft, herr]
  rfl

theorem strictness_ok_of_some (conn : ConnResult) (rcpt : RcptResult)
    (m : String) (he : rcpt.error = some m) :
    ∃ k, checkSmtpStrictness conn rcpt = .ok k := by
  unfold checkSmtpStrictness
  rw [he]
  exact ⟨_, rfl⟩

/-- `stage3Core` records the latency-fingerprint detail whenever an MX was
in use and fast mode is off. -/
theorem stage3Core_latency (env : VerifyEnv) (email : String) (score0 : Int)
    (dnsR : DnsResult) (connR : ConnResult) (rcptR : RcptResult)
    (det : Details) (blk : BlkResult) (sp : Int)
    (hmx : connR.mx_used.isSome = true) :
    (stage3Core env email false score0 dnsR connR rcptR det blk
        sp).details.latency_fingerprint =
      some (analyzeConnectionLatency connR rcptR) := by
  unfold stage3Core
  rw [finalize, applyOverride_details]
  simp only [hmx]
  rfl

/-- C10 counterexample: in the other way a dialogue can be aborted before
`RCPT TO` — MAIL FROM refused, early return at lines 755-757 — `mx_used` is
set, fast mode is off and `response_time_sec` keeps its default 0, yet the
latency-fingerprint probe never contributes -10: the RCPT result's `error`
is still `None`, so `_check_smtp_strictness` (pipeline step 25, line 1597)
raises before the latency probe (step 27) runs, and `verify_email` raises
instead of returning a result. -/
theorem C10_counterexample :
    s1mxUsed (stage1 cenvC10m "user@ten.example" false) =
        some (some "mail.ten.example") ∧
      s1rcptTime (stage1 cenvC10m "user@ten.example" false) = some 0 ∧
      vError (verify_email cenvC10m "user@ten.example" false) =
        some noneLowerError ∧
      vLatency (verify_email cenvC10m "user@ten.example" false) = none := by
  refine ⟨by decide, by decide, by decide, by decide⟩

/-- C10 amended: whenever an MX host was selected, fast mode is off, and
the RCPT dialogue died before `RCPT TO` by raising an exception (the
`dialogueFail` case, which stores the exception string in `error` and
leaves the recorded latency at its default 0), the latency-fingerprint
probe classifies the session as an instant reject and contributes -10
points.  The restriction to the exception case is forced: when the abort
is the refused-MAIL-FROM early return, `error` stays `None` and
`verify_email` crashes in `_check_smtp_strictness` before the latency
probe runs. -/
theorem C10_default_latency (env : VerifyEnv) (email m mh : String)
    (hw : env.rcptWire = RcptWire.dialogueFail m)
    (hmx : s1mxUsed (stage1 env email false) = some (some mh)) :
    s1rcptTime (stage1 env email false) = some 0 ∧
      vLatency (verify_email env email false) =
        some (-10, "instant_reject") := by
  rcases h1 : stage1 env email false with r0 | ⟨s, d, dnsR, connR, rcptR, det⟩
  · rw [h1] at hmx; simp [s1mxUsed] at hmx
  · rw [h1] at hmx
    simp only [s1mxUsed, Option.some_inj] at hmx
    obtain ⟨hd, hdns, hconn, hrcpt⟩ :=
      stage1_proceed_inv env email false s d dnsR connR rcptR det h1
    have hcinv := conn_inv d dnsR.mx_hosts false env.connHosts
    rw [← hconn] at hcinv
    obtain ⟨g1, g2, g3⟩ := hcinv
    have hmxs : connR.mx_used.isSome = true := by rw [hmx]; rfl
    have hpo := g1 hmxs
    have hsk := g2 hmxs
    have hr : rcptR = { RcptResult.init with error := some m } := by
      rw [hrcpt, hw]
      exact rcpt_dialogueFail email d dnsR.mx_hosts connR false m mh hsk hpo hmx
    constructor
    · simp only [s1rcptTime, hr]
      rfl
    · have hv : verify_email env email false =
          stage3 env email false
            (stage2 env false s d dnsR connR rcptR det).1 d dnsR connR rcptR
            (stage2 env false s d dnsR connR rcptR det).2 := by
        simp only [verify_email, h1]
      rw [hv]
      unfold stage3
      have hb : analyzeBlocklistBehavior rcptR connR =
          .ok { points := 0, behavior := "unknown" } :=
        blocklist_ok_of_quiet rcptR connR (by simp [hr, RcptResult.init])
          (by simp [hr, RcptResult.init]) (by simp [hr, RcptResult.init]) g3
      rw [hb]
      obtain ⟨k, hk⟩ :=
        strictness_ok_of_some connR rcptR m (by simp [hr, RcptResult.init])
      rw [if_pos ⟨hmxs, by decide⟩, hk]
      simp only [vLatency]
      rw [stage3Core_latency env email _ dnsR connR rcptR _ _ k hmxs]
      rw [hr]
      rfl

/-- C10 witness: the default-latency instant reject on the concrete
environment whose RCPT session times out before `RCPT TO`. -/
theorem C10_default_latency_witness :
    s1rcptTime (stage1 cenvC10 "user@ten.example" false) = some 0 ∧
      vLatency (verify_email cenvC10 "user@ten.example" false) =
        some (-10, "instant_reject") :=
  C10_default_latency cenvC10 "user@ten.example" "Connection timeout"
    "mail.ten.example" (by decide) (by decide)

/-! ## C9 -/

theorem lastTen_le (l : List String) : (lastTen l).length ≤ 10 := by
  unfold lastTen
  simp only [List.length_reverse, List.length_take]
  omega

/-- Appending one entry commutes with capping: keeping only the last ten
before an append loses nothing that the append's last ten would keep. -/
theorem lastTen_append_one (xs : List String) (d : String) :
    lastTen (lastTen xs ++ [d]) = lastTen (xs ++ [d]) := by
  simp only [lastTen, List.reverse_append, List.reverse_cons, List.reverse_nil,
    List.nil_append, List.singleton_append, List.reverse_reverse]
  rw [show (10 : Nat) = 9 + 1 from rfl, List.take_succ_cons, List.take_succ_cons,
    List.take_take]
  norm_num

/-- Pointwise relation between the capped registry and the ghost registry:
same domain, and each job's stored errors are the last ten of the ghost
job's full error list. -/
def RegRel (r rf : Registry) : Prop :=
  ∀ id, (match r id, rf id with
    | none, none => True
    | some j, some jf => j.errors = lastTen jf.errors
    | _, _ => False)

theorem set_rel (r rf : Registry) (hrel : RegRel r rf) (jid : String)
    (j jf : Job) (hj : j.errors = lastTen jf.errors) :
    RegRel (r.set jid j) (rf.set jid jf) := by
  intro id
  simp only [Registry.set]
  by_cases hid : id = jid
  · simp [hid, hj]
  · simp only [hid, if_false]
    exact hrel id

/-- Every operation preserves the capped/ghost relation. -/
theorem applyOp_rel (r rf : Registry) (hrel : RegRel r rf) (op : JobOp) :
    RegRel (applyOp true r op) (applyOp false rf op) := by
  cases op with
  | create jid jtype total now =>
    simp only [applyOp]
    exact set_rel r rf hrel jid _ _ (by simp [Job.new, lastTen])
  | start jid now =>
    have hj := hrel jid
    rcases hr : r jid with _ | j <;> rcases hrf : rf jid with _ | jf <;>
      rw [hr, hrf] at hj <;> simp only [applyOp, hr, hrf]
    · exact hrel
    · exact hj.elim
    · exact hj.elim
    · exact set_rel r rf hrel jid _ _ hj
  | complete jid op fn now =>
    have hj := hrel jid
    rcases hr : r jid with _ | j <;> rcases hrf : rf jid with _ | jf <;>
      rw [hr, hrf] at hj <;> simp only [applyOp, hr, hrf]
    · exact hrel
    · exact hj.elim
    · exact hj.elim
    · exact set_rel r rf hrel jid _ _ hj
  | fail jid detail now =>
    have hj := hrel jid
    rcases hr : r jid with _ | j <;> rcases hrf : rf jid with _ | jf <;>
      rw [hr, hrf] at hj <;> simp only [applyOp, hr, hrf]
    · exact hrel
    · exact hj.elim
    · exact hj.elim
    · refine set_rel r rf hrel jid _ _ ?_
      rw [hj, lastTen_append_one]
      simp
  | increment jid success message errorDetail =>
    have hj := hrel jid
    rcases hr : r jid with _ | j <;> rcases hrf : rf jid with _ | jf <;>
      rw [hr, hrf] at hj <;> simp only [applyOp, hr, hrf]
    · exact hrel
    · exact hj.elim
    · exact hj.elim
    · refine set_rel r rf hrel jid _ _ ?_
      rcases success with _ | _
      · rcases ht : optTruthy errorDetail with _ | _ <;>
          rcases hm : optTruthy message with _ | _ <;>
          simp only [ht, hm, Bool.false_eq_true, if_false, if_true] <;>
          first
            | exact hj
            | (rw [hj, lastTen_append_one])
      · rcases hm : optTruthy message with _ | _ <;>
          simp only [hm, Bool.false_eq_true, if_false, if_true] <;> exact hj

/-- The capped run and the ghost run stay related from the empty registry. -/
theorem runOps_rel (ops : List JobOp) : RegRel (runOps ops) (runOpsFull ops) := by
  suffices h : ∀ r rf, RegRel r rf →
      RegRel (ops.foldl (applyOp true) r) (ops.foldl (applyOp false) rf) by
    exact h _ _ (fun id => by simp [Registry.empty])
  induction ops with
  | nil => intro r rf h; exact h
  | cons op rest ih =>
    intro r rf h
    exact ih _ _ (applyOp_rel r rf h op)

/-- C9: after any sequence of job-manager operations, every job's stored
errors list has at most ten entries, and those entries are exactly the last
ten error strings that were recorded for that job (the ghost run
`runOpsFull` keeps the full record). -/
theorem C9_error_log (ops : List JobOp) (id : String) (j jf : Job)
    (h : runOps ops id = some j) (hf : runOpsFull ops id = some jf) :
    j.errors.length ≤ 10 ∧ j.errors = lastTen jf.errors := by
  have hrel := runOps_rel ops id
  rw [h, hf] at hrel
  refine ⟨?_, hrel⟩
  rw [hrel]
  exact lastTen_le _

/-- A concrete bulk run: one job, twelve failing rows with recorded error
details, then a terminal `fail_job`. -/
def opsW : List JobOp :=
  [.create "j" "bulk_verify" 20 100, .start "j" 101,
   .increment "j" false none (some "e01"), .increment "j" false none (some "e02"),
   .increment "j" false none (some "e03"), .increment "j" false none (some "e04"),
   .increment "j" false none (some "e05"), .increment "j" false none (some "e06"),
   .increment "j" false none (some "e07"), .increment "j" false none (some "e08"),
   .increment "j" false none (some "e09"), .increment "j" false none (some "e10"),
   .increment "j" false none (some "e11"), .increment "j" false none (some "e12"),
   .fail "j" "final" 200]

/-- The capped job the concrete run produces. -/
def jW : Job :=
  { jtype := "bulk_verify", status := "failed", total_rows := 20
    processed_rows := 12, success_rows := 0, error_rows := 12
    created_at := 100, started_at := some 101, finished_at := some 200
    message := some "final", output_path := none, output_filename := none
    errors := ["e04", "e05", "e06", "e07", "e08", "e09", "e10", "e11", "e12",
               "final"] }

/-- The ghost job with the full error record. -/
def jfW : Job :=
  { jW with errors := ["e01", "e02", "e03", "e04", "e05", "e06", "e07", "e08",
                       "e09", "e10", "e11", "e12", "final"] }

/-- C9 witness: the invariant applied to the concrete run. -/
theorem C9_error_log_witness :
    jW.errors.length ≤ 10 ∧ jW.errors = lastTen jfW.errors :=
  C9_error_log opsW "j" jW jfW (by decide) (by decide)

end EVF
